import Mathlib

/-!
Verification of the LeaseIQ business-intelligence engine
(src/backend/business_intelligence.py), shallowly embedded in Lean 4.

Modelling conventions:
* Python str values are List Char; str.lower is modelled for ASCII letters.
* Python float arithmetic is modelled over the rationals: every numeric
  literal in the engine is an exact decimal and no claim depends on binary
  rounding of IEEE floats.
* Python regular expressions are modelled by a small backtracking matcher
  (runRE) that reproduces the re module preference order (leftmost match,
  left alternative first, greedy star longest first, lazy star shortest
  first) for the pattern subset used by the engine.
* The human-readable strings the engine generates (red flags,
  recommendations, violations) are modelled as inductive message values
  carrying the same data as the corresponding f-strings.
* datetime.now() is modelled as an explicit clock argument.
-/

namespace LeaseIQ

/-- A Python string literal as a list of characters. -/
def txt (s : String) : List Char := s.toList

/-- The apostrophe character, U+0027. -/
def apos : Char := Char.ofNat 39

/-- Python whitespace (the re module class backslash-s), ASCII fragment. -/
def isPySpace (c : Char) : Bool :=
  c = ' ' || c = '\t' || c = '\n' || c = '\r' || c = '\x0b' || c = '\x0c'

/-- Python str.lower restricted to ASCII letters. -/
def pyLower (s : List Char) : List Char :=
  s.map (fun c => if 'A' ≤ c ∧ c ≤ 'Z' then Char.ofNat (c.toNat + 32) else c)

/-- Python substring containment, needle in hay. -/
def containsSub (hay needle : List Char) : Bool :=
  hay.tails.any (fun t => needle.isPrefixOf t)

def ocrCleanAux : Nat → List Char → List Char
  | 0, s => s
  | _ + 1, [] => []
  | fuel + 1, c :: rest =>
    if c.isDigit then
      let sp := rest.takeWhile isPySpace
      if 0 < sp.length then
        match rest.drop sp.length with
        | d :: rest2 =>
          if d.isDigit then c :: d :: ocrCleanAux fuel rest2
          else c :: ocrCleanAux fuel rest
        | [] => c :: ocrCleanAux fuel rest
      else c :: ocrCleanAux fuel rest
    else c :: ocrCleanAux fuel rest

/-- Python re.sub of pattern digit-whitespace-digit with the two digits:
collapses each digit, whitespace run, digit triple, scanning left to right
and resuming after the second digit (the OCR artifact cleanup of
_extract_business_metrics). -/
def ocrClean (s : List Char) : List Char := ocrCleanAux s.length s

/-- Regular-expression abstract syntax for the pattern subset used by the
engine: single-character classes, concatenation, alternation, greedy and
lazy star, and capturing groups. -/
inductive RE where
  | eps : RE
  | cls : (Char → Bool) → RE
  | cat : RE → RE → RE
  | alt : RE → RE → RE
  | star : Bool → RE → RE
  | grp : RE → RE

/-- Combine the captures of two sequenced subexpressions; a later capture of
the (single) group wins, as in the re module. -/
def mergeCap (c1 c2 : Option (List Char)) : Option (List Char) :=
  match c2 with
  | some v => some v
  | none => c1

/-- All ways a regex can match a prefix of s, as (rest, capture) pairs, in
the re module backtracking preference order: alternation left first, greedy
star longer first, lazy star shorter first. The recursion is structural on
the fuel (so the function reduces inside the kernel); a star iteration must
consume at least one character (every star body in the engine patterns is a
one-character class, so this guard is invisible), and matchAt below supplies
fuel ample for full backtracking. -/
def runRE (fuel : Nat) (re : RE) (s : List Char) :
    List (List Char × Option (List Char)) :=
  match fuel with
  | 0 => []
  | fuel + 1 =>
    match re, s with
    | .eps, s => [(s, none)]
    | .cls _, [] => []
    | .cls p, c :: s => if p c then [(s, none)] else []
    | .cat a b, s =>
      (runRE fuel a s).flatMap (fun r1 =>
        (runRE fuel b r1.1).map (fun r2 => (r2.1, mergeCap r1.2 r2.2)))
    | .alt a b, s => runRE fuel a s ++ runRE fuel b s
    | .star greedy a, s =>
      let iters :=
        (runRE fuel a s).flatMap (fun r1 =>
          if r1.1.length < s.length then
            (runRE fuel (.star greedy a) r1.1).map
              (fun r2 => (r2.1, mergeCap r1.2 r2.2))
          else [])
      if greedy then iters ++ [(s, none)] else (s, none) :: iters
    | .grp a, s =>
      (runRE fuel a s).map (fun r1 => (r1.1, some (s.take (s.length - r1.1.length))))

/-- Structural size of a regex, used to budget the matching fuel. -/
def reSize : RE → Nat
  | .eps => 1
  | .cls _ => 1
  | .cat a b => reSize a + reSize b + 1
  | .alt a b => reSize a + reSize b + 1
  | .star _ a => reSize a + 1
  | .grp a => reSize a + 1

/-- First match of a regex anchored at the start of s, in preference order.
The fuel (pattern size + 2) * (text length + 2) dominates the recursion
depth of any backtracking run: every star iteration consumes a character
and descends at most the pattern size. -/
def matchAt (r : RE) (s : List Char) : Option (List Char × Option (List Char)) :=
  (runRE ((reSize r + 2) * (s.length + 2)) r s).head?

def findAllAux : Nat → RE → List Char → List (List Char)
  | 0, _, _ => []
  | fuel + 1, r, s =>
    match matchAt r s with
    | some (rest, cap) =>
      let whole := s.take (s.length - rest.length)
      let res := cap.getD whole
      if rest.length < s.length then res :: findAllAux fuel r rest
      else
        match s with
        | [] => [res]
        | _ :: t => res :: findAllAux fuel r t
    | none =>
      match s with
      | [] => []
      | _ :: t => findAllAux fuel r t

/-- Python re.findall: non-overlapping matches scanning left to right; for a
pattern with one capturing group the group text is returned, for a pattern
without groups the whole match. -/
def pyFindall (r : RE) (s : List Char) : List (List Char) :=
  findAllAux (s.length + 1) r s

/-- The first element of re.findall, i.e. matches[0] when matches is
non-empty. -/
def findFirst (r : RE) (s : List Char) : Option (List Char) :=
  (pyFindall r s).head?

/-! Pattern constructors. Each engine pattern is transcribed from the regex
string literal in the source; the original literal is quoted in a comment. -/

def rcat (l : List RE) : RE := l.foldr RE.cat RE.eps

def ralt : List RE → RE
  | [] => RE.eps
  | [r] => r
  | r :: rest => RE.alt r (ralt rest)

/-- A literal string as a regex. -/
def rlitL (s : List Char) : RE := rcat (s.map (fun c => RE.cls (fun x => x = c)))

def rlit (s : String) : RE := rlitL s.toList

/-- Dot: any character except newline. -/
def rdot : RE := RE.cls (fun c => c ≠ '\n')

/-- Digit class. -/
def rd : RE := RE.cls Char.isDigit

/-- Whitespace class. -/
def rs : RE := RE.cls isPySpace

def rstar (r : RE) : RE := RE.star true r

def rstarL (r : RE) : RE := RE.star false r

def rplus (r : RE) : RE := RE.cat r (rstar r)

def ropt (r : RE) : RE := RE.alt r RE.eps

/-- Class of digits and comma. -/
def rdc : RE := RE.cls (fun c => c.isDigit || c = ',')

/-- Capture group: one or more digits/commas, optional dot, digits. -/
def numGroup : RE := RE.grp (rcat [rplus rdc, ropt (rlit (r".")), rstar rd])

/-- Dollar sign, optional space, then the numeric capture group. -/
def dollarAmt : RE := rcat [rlit (r"$"), ropt rs, numGroup]

/-- Optional dollar sign, then the numeric capture group. -/
def optDollarAmt : RE := rcat [ropt (rlit (r"$")), numGroup]

/-- Capture group of one or more digits. -/
def natGroup : RE := RE.grp (rplus rd)

/-- The rent pattern cascade of LeaseAnalysisEngine.patterns, in order. -/
def rentPatterns : List RE := [
  -- monthly.*base.*rent.*?\$\s?([\d,]+\.?\d*)
  rcat [rlit (r"monthly"), rstar rdot, rlit (r"base"), rstar rdot,
        rlit (r"rent"), rstarL rdot, dollarAmt],
  -- base.*rent.*?\$\s?([\d,]+\.?\d*)
  rcat [rlit (r"base"), rstar rdot, rlit (r"rent"), rstarL rdot, dollarAmt],
  -- monthly.*rent.*?\$\s?([\d,]+\.?\d*)
  rcat [rlit (r"monthly"), rstar rdot, rlit (r"rent"), rstarL rdot, dollarAmt],
  -- rent.*?\$\s?([\d,]+\.?\d*).*(?:per|/|a)\s*month
  rcat [rlit (r"rent"), rstarL rdot, dollarAmt, rstar rdot,
        ralt [rlit (r"per"), rlit (r"/"), rlit (r"a")], rstar rs, rlit (r"month")],
  -- monthly.*payment.*?\$\s?([\d,]+\.?\d*)
  rcat [rlit (r"monthly"), rstar rdot, rlit (r"payment"), rstarL rdot, dollarAmt],
  -- \$\s?([\d,]+\.?\d*).*per month
  rcat [dollarAmt, rstar rdot, rlit (r"per month")],
  -- tenant.*pay.*?\$\s?([\d,]+\.?\d*).*month
  rcat [rlit (r"tenant"), rstar rdot, rlit (r"pay"), rstarL rdot, dollarAmt,
        rstar rdot, rlit (r"month")],
  -- rent(?:al)?.*amount.*?\$\s?([\d,]+\.?\d*)
  rcat [rlit (r"rent"), ropt (rlit (r"al")), rstar rdot, rlit (r"amount"),
        rstarL rdot, dollarAmt]]

/-- The security_deposit pattern cascade, in order. -/
def securityDepositPatterns : List RE := [
  -- security deposit.*?\$\s?([\d,]+\.?\d*)
  rcat [rlit (r"security deposit"), rstarL rdot, dollarAmt],
  -- deposit.*amount.*?\$\s?([\d,]+\.?\d*)
  rcat [rlit (r"deposit"), rstar rdot, rlit (r"amount"), rstarL rdot, dollarAmt],
  -- \$\s?([\d,]+\.?\d*).*security\s*deposit
  rcat [dollarAmt, rstar rdot, rlit (r"security"), rstar rs, rlit (r"deposit")],
  -- initial.*deposit.*?\$\s?([\d,]+\.?\d*)
  rcat [rlit (r"initial"), rstar rdot, rlit (r"deposit"), rstarL rdot, dollarAmt]]

/-- The pet_fee pattern cascade, in order. -/
def petFeePatterns : List RE := [
  -- pet.*(?:fee|rent|deposit).*?\$\s?([\d,]+\.?\d*)
  rcat [rlit (r"pet"), rstar rdot,
        ralt [rlit (r"fee"), rlit (r"rent"), rlit (r"deposit")],
        rstarL rdot, dollarAmt],
  -- animal.*(?:fee|rent).*?\$\s?([\d,]+\.?\d*)
  rcat [rlit (r"animal"), rstar rdot, ralt [rlit (r"fee"), rlit (r"rent")],
        rstarL rdot, dollarAmt],
  -- \$\s?([\d,]+\.?\d*).*(?:per|/)\s*pet
  rcat [dollarAmt, rstar rdot, ralt [rlit (r"per"), rlit (r"/")],
        rstar rs, rlit (r"pet")],
  -- additional.*pet.*?\$\s?([\d,]+\.?\d*)
  rcat [rlit (r"additional"), rstar rdot, rlit (r"pet"), rstarL rdot, dollarAmt]]

/-- The late_fee pattern cascade, in order. -/
def lateFeePatterns : List RE := [
  -- late.*(?:fee|charge|payment).*?\$\s?([\d,]+\.?\d*)
  rcat [rlit (r"late"), rstar rdot,
        ralt [rlit (r"fee"), rlit (r"charge"), rlit (r"payment")],
        rstarL rdot, dollarAmt],
  -- \$\s?([\d,]+\.?\d*).*late.*(?:fee|charge)
  rcat [dollarAmt, rstar rdot, rlit (r"late"), rstar rdot,
        ralt [rlit (r"fee"), rlit (r"charge")]],
  -- delinquent.*payment.*?\$\s?([\d,]+\.?\d*)
  rcat [rlit (r"delinquent"), rstar rdot, rlit (r"payment"), rstarL rdot, dollarAmt]]

/-- The application_fee pattern cascade, in order. -/
def applicationFeePatterns : List RE := [
  -- application.*fee.*?\$\s?([\d,]+\.?\d*)
  rcat [rlit (r"application"), rstar rdot, rlit (r"fee"), rstarL rdot, dollarAmt],
  -- processing.*fee.*?\$\s?([\d,]+\.?\d*)
  rcat [rlit (r"processing"), rstar rdot, rlit (r"fee"), rstarL rdot, dollarAmt],
  -- \$\s?([\d,]+\.?\d*).*application
  rcat [dollarAmt, rstar rdot, rlit (r"application")]]

/-- The parking_fee pattern cascade, in order. -/
def parkingFeePatterns : List RE := [
  -- parking.*(?:fee|charge).*?\$\s?([\d,]+\.?\d*)
  rcat [rlit (r"parking"), rstar rdot, ralt [rlit (r"fee"), rlit (r"charge")],
        rstarL rdot, dollarAmt],
  -- \$\s?([\d,]+\.?\d*).*parking
  rcat [dollarAmt, rstar rdot, rlit (r"parking")],
  -- garage.*(?:fee|rent).*?\$\s?([\d,]+\.?\d*)
  rcat [rlit (r"garage"), rstar rdot, ralt [rlit (r"fee"), rlit (r"rent")],
        rstarL rdot, dollarAmt]]

/-- The utilities pattern table. It is declared in the engine constructor but
_extract_business_metrics never iterates over it, so no metric is ever
extracted from it (claim C10). -/
def utilitiesPatterns : List RE := [
  -- utilities.*?\$?([\d,]+\.?\d*)
  rcat [rlit (r"utilities"), rstarL rdot, optDollarAmt],
  -- electric.*?\$?([\d,]+\.?\d*)
  rcat [rlit (r"electric"), rstarL rdot, optDollarAmt],
  -- gas.*?\$?([\d,]+\.?\d*)
  rcat [rlit (r"gas"), rstarL rdot, optDollarAmt],
  -- water.*?\$?([\d,]+\.?\d*)
  rcat [rlit (r"water"), rstarL rdot, optDollarAmt]]

/-- The notice_period pattern cascade, in order. -/
def noticePeriodPatterns : List RE := [
  -- (\d+).*day.*notice
  rcat [natGroup, rstar rdot, rlit (r"day"), rstar rdot, rlit (r"notice")],
  -- notice.*(\d+).*day
  rcat [rlit (r"notice"), rstar rdot, natGroup, rstar rdot, rlit (r"day")],
  -- (\d+).*calendar day.*notice
  rcat [natGroup, rstar rdot, rlit (r"calendar day"), rstar rdot, rlit (r"notice")]]

/-- The lease_term pattern cascade, in order. -/
def leaseTermPatterns : List RE := [
  -- (\d+).*month.*term
  rcat [natGroup, rstar rdot, rlit (r"month"), rstar rdot, rlit (r"term")],
  -- term.*(\d+).*month
  rcat [rlit (r"term"), rstar rdot, natGroup, rstar rdot, rlit (r"month")],
  -- lease.*period.*(\d+).*month
  rcat [rlit (r"lease"), rstar rdot, rlit (r"period"), rstar rdot, natGroup,
        rstar rdot, rlit (r"month")]]

/-- The termination_fee pattern cascade, in order. -/
def terminationFeePatterns : List RE := [
  -- liquidated.*damages.*?\$?([\d,]+\.?\d*)
  rcat [rlit (r"liquidated"), rstar rdot, rlit (r"damages"), rstarL rdot, optDollarAmt],
  -- early.*termination.*?\$?([\d,]+\.?\d*)
  rcat [rlit (r"early"), rstar rdot, rlit (r"termination"), rstarL rdot, optDollarAmt],
  -- termination.*fee.*?\$?([\d,]+\.?\d*)
  rcat [rlit (r"termination"), rstar rdot, rlit (r"fee"), rstarL rdot, optDollarAmt]]

/-- Compliance pattern category: discrimination (first group of
compliance_patterns). -/
def discriminationPatterns : List RE := [
  -- race|color|religion|sex|national origin|disability|familial status
  ralt [rlit (r"race"), rlit (r"color"), rlit (r"religion"), rlit (r"sex"),
        rlit (r"national origin"), rlit (r"disability"), rlit (r"familial status")],
  -- no children|adults only|mature individuals
  ralt [rlit (r"no children"), rlit (r"adults only"), rlit (r"mature individuals")]]

/-- Compliance pattern category: illegal_fees. -/
def illegalFeesPatterns : List RE := [
  -- non-refundable.*deposit
  rcat [rlit (r"non-refundable"), rstar rdot, rlit (r"deposit")],
  -- application.*fee.*\$(\d+)
  rcat [rlit (r"application"), rstar rdot, rlit (r"fee"), rstar rdot,
        rlit (r"$"), natGroup],
  -- processing.*fee.*\$(\d+)
  rcat [rlit (r"processing"), rstar rdot, rlit (r"fee"), rstar rdot,
        rlit (r"$"), natGroup]]

/-- Compliance pattern category: habitability. -/
def habitabilityPatterns : List RE := [
  -- as-is condition|no warranty|no guarantees
  ralt [rlit (r"as-is condition"), rlit (r"no warranty"), rlit (r"no guarantees")],
  -- tenant.*responsible.*all.*repair
  rcat [rlit (r"tenant"), rstar rdot, rlit (r"responsible"), rstar rdot,
        rlit (r"all"), rstar rdot, rlit (r"repair")]]

/-! Numeric parsing. -/

/-- Value of a digit string, most significant digit first. -/
def digitsVal (ds : List Char) : ℕ := ds.foldl (fun a c => 10 * a + (c.toNat - 48)) 0

/-- matches[0].replace with comma and space removed. -/
def stripNum (cs : List Char) : List Char :=
  cs.filter (fun c => (c != ',') && (c != ' '))

/-- Python float on the digit/comma/dot captures produced by the money
patterns (after comma/space stripping): digits, digits-dot, dot-digits or
digits-dot-digits parse; anything else (including the empty string or a
lone dot) raises ValueError, modelled as none. -/
def pyFloat (cs : List Char) : Option ℚ :=
  let ip := cs.takeWhile Char.isDigit
  let rest := cs.drop ip.length
  match rest with
  | [] => if ip.isEmpty then none else some ((digitsVal ip : ℚ))
  | c :: frac =>
    if (c == '.') && frac.all Char.isDigit && !(ip.isEmpty && frac.isEmpty) then
      -- integer part plus fractional part over a power of ten, as one
      -- exact fraction
      some (mkRat (digitsVal ip * 10 ^ frac.length + digitsVal frac) (10 ^ frac.length))
    else none

/-- Python int on an all-digit capture. -/
def pyInt (cs : List Char) : Option ℕ :=
  if !cs.isEmpty && cs.all Char.isDigit then some (digitsVal cs) else none

/-! Configuration constants of class AnalysisConfig. -/

namespace AnalysisConfig

def MIN_RENT : ℚ := 100

def MAX_RENT : ℚ := 100000

def MIN_DEPOSIT : ℚ := 0

def MAX_DEPOSIT : ℚ := 100000

def MIN_PET_FEE : ℚ := 0

def MAX_PET_FEE : ℚ := 10000

def MIN_NOTICE_PERIOD : ℕ := 1

def MAX_NOTICE_PERIOD : ℕ := 365

def MIN_LEASE_TERM : ℕ := 1

def MAX_LEASE_TERM : ℕ := 60

def RISK_LOW_THRESHOLD : ℚ := 25

def RISK_MEDIUM_THRESHOLD : ℚ := 50

def RISK_HIGH_THRESHOLD : ℚ := 75

end AnalysisConfig

/-! Data model. -/

/-- The BusinessMetrics dataclass. Field defaults are the dataclass
defaults; total_monthly_cost and total_lease_value are the derived fields
recomputed by __post_init__ and by the tail of _extract_business_metrics. -/
structure BusinessMetrics where
  monthly_rent : ℚ := 0
  security_deposit : ℚ := 0
  pet_fees : ℚ := 0
  utility_costs : ℚ := 0
  total_monthly_cost : ℚ := 0
  lease_duration_months : ℕ := 0
  total_lease_value : ℚ := 0
  notice_period_days : ℕ := 0
  early_termination_penalty : ℚ := 0
  late_fee : ℚ := 0
  application_fee : ℚ := 0
  parking_fee : ℚ := 0
  extraction_confidence : ℚ := 0
deriving DecidableEq

/-- BusinessMetrics.__post_init__: recompute total_monthly_cost always and
total_lease_value when lease_duration_months is positive (otherwise the
field keeps its previous value). -/
def postInit (m : BusinessMetrics) : BusinessMetrics :=
  let tmc := m.monthly_rent + m.pet_fees + m.utility_costs + m.parking_fee
  { m with
    total_monthly_cost := tmc
    total_lease_value :=
      if m.lease_duration_months > 0 then tmc * m.lease_duration_months
      else m.total_lease_value }

/-! The metric extractor (_extract_business_metrics). -/

/-- Range check for monthly rent: MIN_RENT <= value <= MAX_RENT. -/
def rentAccept (v : ℚ) : Bool :=
  decide (AnalysisConfig.MIN_RENT ≤ v) && decide (v ≤ AnalysisConfig.MAX_RENT)

/-- Range check for the security deposit. -/
def depositAccept (v : ℚ) : Bool :=
  decide (AnalysisConfig.MIN_DEPOSIT ≤ v) && decide (v ≤ AnalysisConfig.MAX_DEPOSIT)

/-- Range check for the pet fee. -/
def petAccept (v : ℚ) : Bool :=
  decide (AnalysisConfig.MIN_PET_FEE ≤ v) && decide (v ≤ AnalysisConfig.MAX_PET_FEE)

/-- Range check for the late fee (literal bounds 0 and 500 in the source). -/
def lateAccept (v : ℚ) : Bool := decide ((0 : ℚ) ≤ v) && decide (v ≤ (500 : ℚ))

/-- Range check for the application fee (literal bounds 0 and 500). -/
def appAccept (v : ℚ) : Bool := decide ((0 : ℚ) ≤ v) && decide (v ≤ (500 : ℚ))

/-- Range check for the parking fee (literal bounds 0 and 1000). -/
def parkingAccept (v : ℚ) : Bool := decide ((0 : ℚ) ≤ v) && decide (v ≤ (1000 : ℚ))

/-- Range check for the termination fee: any non-negative value is valid. -/
def termAccept (v : ℚ) : Bool := decide ((0 : ℚ) ≤ v)

/-- Range check for the notice period in days. -/
def noticeAccept (n : ℕ) : Bool :=
  decide (AnalysisConfig.MIN_NOTICE_PERIOD ≤ n) && decide (n ≤ AnalysisConfig.MAX_NOTICE_PERIOD)

/-- Range check for the lease term in months. -/
def leaseAccept (n : ℕ) : Bool :=
  decide (AnalysisConfig.MIN_LEASE_TERM ≤ n) && decide (n ≤ AnalysisConfig.MAX_LEASE_TERM)

/-- One step of a money cascade: take the first findall result of the
pattern, strip commas and spaces, parse it as a float and accept it when it
passes the range check. A missing match, a parse failure or an out-of-range
value rejects (none) and the cascade moves to the next pattern. -/
def tryMoney (accept : ℚ → Bool) (tl : List Char) (p : RE) : Option ℚ :=
  match findFirst p tl with
  | none => none
  | some cap =>
    match pyFloat (stripNum cap) with
    | none => none
    | some v => if accept v then some v else none

/-- The ordered fallback cascade for a money metric: the first pattern whose
first match parses to an in-range value wins and evaluation stops. -/
def cascadeMoney (ps : List RE) (accept : ℚ → Bool) (tl : List Char) : Option ℚ :=
  match ps with
  | [] => none
  | p :: rest =>
    match tryMoney accept tl p with
    | some v => some v
    | none => cascadeMoney rest accept tl

/-- One step of an integer cascade (notice period, lease term). -/
def tryNat (accept : ℕ → Bool) (tl : List Char) (p : RE) : Option ℕ :=
  match findFirst p tl with
  | none => none
  | some cap =>
    match pyInt cap with
    | none => none
    | some v => if accept v then some v else none

/-- The ordered fallback cascade for an integer metric. -/
def cascadeNat (ps : List RE) (accept : ℕ → Bool) (tl : List Char) : Option ℕ :=
  match ps with
  | [] => none
  | p :: rest =>
    match tryNat accept tl p with
    | some v => some v
    | none => cascadeNat rest accept tl

/-- Body of _extract_business_metrics before the confidence mean and the
derived-field recomputation: the per-metric cascades over the OCR-cleaned,
lowercased text, and the confidence_scores list in the order the source
appends to it (rent always contributes 0.9 or 0.0, deposit always 0.85 or
0.0; pet fee, notice period and lease term contribute 0.75, 0.8 and 0.85
respectively only on success; late, application, parking and termination
fees never contribute). utility_costs is never assigned: the utilities
pattern table is never iterated. -/
def extractCore (text : List Char) : BusinessMetrics × List ℚ :=
  let tl := pyLower (ocrClean text)
  let rentv := cascadeMoney rentPatterns rentAccept tl
  let depositv := cascadeMoney securityDepositPatterns depositAccept tl
  let petv := cascadeMoney petFeePatterns petAccept tl
  let latev := cascadeMoney lateFeePatterns lateAccept tl
  let appv := cascadeMoney applicationFeePatterns appAccept tl
  let parkingv := cascadeMoney parkingFeePatterns parkingAccept tl
  let noticev := cascadeNat noticePeriodPatterns noticeAccept tl
  let leasev := cascadeNat leaseTermPatterns leaseAccept tl
  let termv := cascadeMoney terminationFeePatterns termAccept tl
  let confs : List ℚ :=
    [if rentv.isSome then (0.9 : ℚ) else 0,
     if depositv.isSome then (0.85 : ℚ) else 0]
    ++ (if petv.isSome then [(0.75 : ℚ)] else [])
    ++ (if noticev.isSome then [(0.8 : ℚ)] else [])
    ++ (if leasev.isSome then [(0.85 : ℚ)] else [])
  let m : BusinessMetrics :=
    { monthly_rent := rentv.getD 0
      security_deposit := depositv.getD 0
      pet_fees := petv.getD 0
      late_fee := latev.getD 0
      application_fee := appv.getD 0
      parking_fee := parkingv.getD 0
      notice_period_days := noticev.getD 0
      lease_duration_months := leasev.getD 0
      early_termination_penalty := termv.getD 0 }
  (m, confs)

/-- _extract_business_metrics: run the cascades, set extraction_confidence
to the mean of the confidence_scores list (0 if that list were empty), and
recompute the two derived fields from the final component values. -/
def extractBusinessMetrics (text : List Char) : BusinessMetrics :=
  let core := extractCore text
  let m0 := core.1
  let confs := core.2
  let conf : ℚ := if confs.isEmpty then 0 else confs.sum / confs.length
  let tmc := m0.monthly_rent + m0.pet_fees + m0.utility_costs + m0.parking_fee
  { m0 with
    extraction_confidence := conf
    total_monthly_cost := tmc
    total_lease_value :=
      if m0.lease_duration_months > 0 then tmc * m0.lease_duration_months
      else m0.total_lease_value }

/-! The risk scorer (_assess_risks). -/

/-- The RiskLevel enum. -/
inductive RiskLevel where
  | low
  | medium
  | high
  | critical
deriving DecidableEq

/-- Red-flag messages, one constructor per f-string template in
_assess_risks, carrying the interpolated data. -/
inductive RedFlag where
  | excessiveDeposit
  | highTerminationPenalty
  | extendedNotice (days : ℕ)
  | excessiveLateFee (amount : ℚ)
  | aggressiveLanguage (term : List Char)
  | unfavorableClause (clause : List Char)
deriving DecidableEq

/-- Mitigation-strategy entries; each constructor stands for one literal
issue/strategy/priority dict of _assess_risks (priorities: high, medium,
low, critical respectively). -/
inductive Mitigation where
  | depositReduction
  | terminationCap
  | noticeReduction
  | complianceReview (category : List Char)
deriving DecidableEq

/-- Compliance-issue messages of _assess_risks: category and the number of
matched instances. -/
inductive ComplianceIssue where
  | potentialViolation (category : List Char) (instances : ℕ)
deriving DecidableEq

/-- Recommendation messages, one constructor per literal template in
_assess_risks, carrying the interpolated data. -/
inductive Recommendation where
  | negotiateDeposit (fromAmt toAmt : ℚ)
  | reduceNotice (days : ℕ)
  | engageLegalCounsel
  | documentConcerns
  | legalReviewHighRisk
  | removeIllegalClauses
  | considerAlternatives
deriving DecidableEq

/-- Tenant- or landlord-favorable term descriptions (the description side of
the two pattern tables in _identify_tenant_favorable_terms and
_identify_landlord_favorable_terms). -/
inductive FavorableTerm where
  | landlordRepairs
  | utilitiesIncluded
  | noPetDeposit
  | monthToMonth
  | tenantAllRepairs
  | soldAsIs
  | liquidatedDamages
  | autoRenewal
deriving DecidableEq

/-- The RiskAssessment dataclass. risk_factors is the insertion-ordered
dict from factor name to recorded points. -/
structure RiskAssessment where
  risk_level : RiskLevel
  risk_score : ℚ
  financial_exposure : ℚ
  compliance_issues : List ComplianceIssue
  tenant_favorable_terms : List FavorableTerm
  landlord_favorable_terms : List FavorableTerm
  red_flags : List RedFlag
  recommendations : List Recommendation
  risk_factors : List (List Char × ℚ)
  mitigation_strategies : List Mitigation
deriving DecidableEq

/-- Accumulated contributions of one rule block of _assess_risks: its score
increment, risk_factors entries, red flags, compliance issues and
mitigation strategies, each in source append order. -/
structure RulePart where
  score : ℚ := 0
  factors : List (List Char × ℚ) := []
  flags : List RedFlag := []
  issues : List ComplianceIssue := []
  mitigations : List Mitigation := []
deriving DecidableEq

/-- Sequencing of two rule blocks. -/
def RulePart.append (a b : RulePart) : RulePart :=
  { score := a.score + b.score
    factors := a.factors ++ b.factors
    flags := a.flags ++ b.flags
    issues := a.issues ++ b.issues
    mitigations := a.mitigations ++ b.mitigations }

/-- Sequencing of a list of rule blocks in order. -/
def combineParts (l : List RulePart) : RulePart := l.foldr RulePart.append {}

def kExcessiveDeposit : List Char := txt (r"excessive_deposit")

def kHighDeposit : List Char := txt (r"high_deposit")

def kHighTerminationPenalty : List Char := txt (r"high_termination_penalty")

def kTerminationPenalty : List Char := txt (r"termination_penalty")

def kExtendedNotice : List Char := txt (r"extended_notice")

def kLongNotice : List Char := txt (r"long_notice")

def kExcessiveLateFee : List Char := txt (r"excessive_late_fee")

def kHighApplicationFee : List Char := txt (r"high_application_fee")

def kAggressiveLanguage : List Char := txt (r"aggressive_language")

def kUnfavorableTerms : List Char := txt (r"unfavorable_terms")

/-- Deposit tier rule: deposit above 2x rent scores 15 (excessive_deposit,
red flag, mitigation); else deposit above 1.5x rent scores 8
(high_deposit); the two tiers are mutually exclusive. -/
def depositPart (m : BusinessMetrics) : RulePart :=
  if m.security_deposit > m.monthly_rent * 2 then
    { score := 15, factors := [(kExcessiveDeposit, 15)],
      flags := [.excessiveDeposit], mitigations := [.depositReduction] }
  else if m.security_deposit > m.monthly_rent * 1.5 then
    { score := 8, factors := [(kHighDeposit, 8)] }
  else {}

/-- Termination-penalty tier rule: above 2x rent scores 12, else above 1x
rent scores 6. -/
def terminationPart (m : BusinessMetrics) : RulePart :=
  if m.early_termination_penalty > m.monthly_rent * 2 then
    { score := 12, factors := [(kHighTerminationPenalty, 12)],
      flags := [.highTerminationPenalty], mitigations := [.terminationCap] }
  else if m.early_termination_penalty > m.monthly_rent then
    { score := 6, factors := [(kTerminationPenalty, 6)] }
  else {}

/-- Notice-period tier rule: above 60 days scores 10, else above 45 days
scores 5. -/
def noticePart (m : BusinessMetrics) : RulePart :=
  if m.notice_period_days > 60 then
    { score := 10, factors := [(kExtendedNotice, 10)],
      flags := [.extendedNotice m.notice_period_days],
      mitigations := [.noticeReduction] }
  else if m.notice_period_days > 45 then
    { score := 5, factors := [(kLongNotice, 5)] }
  else {}

/-- Late-fee rule: a late fee above 10 percent of rent scores 8. -/
def lateFeePart (m : BusinessMetrics) : RulePart :=
  if m.late_fee > m.monthly_rent * 0.1 then
    { score := 8, factors := [(kExcessiveLateFee, 8)],
      flags := [.excessiveLateFee m.late_fee] }
  else {}

/-- Application-fee rule: an application fee above 100 scores 5. -/
def appFeePart (m : BusinessMetrics) : RulePart :=
  if m.application_fee > 100 then
    { score := 5, factors := [(kHighApplicationFee, 5)] }
  else {}

/-- The aggressive_terms table of _assess_risks with its per-phrase
severities. -/
def aggressiveTerms : List (List Char × ℚ) := [
  (txt (r"strictly enforced"), 5),
  (txt (r"no exceptions"), 5),
  (txt (r"immediate eviction"), 10),
  (txt (r"forfeit all rights"), 12),
  (txt (r"waive all claims"), 12),
  (txt (r"hold harmless"), 8),
  (txt (r"indemnify landlord"), 10),
  (txt (r"at landlord") ++ [apos] ++ txt (r"s sole discretion"), 7)]

/-- The aggressive phrases present in the lowercased text, in table order. -/
def aggressiveHits (tl : List Char) : List (List Char × ℚ) :=
  aggressiveTerms.filter (fun p => containsSub tl p.1)

/-- Sum of the severities the aggressive-language loop adds to risk_score. -/
def aggSeveritySum (tl : List Char) : ℚ := ((aggressiveHits tl).map Prod.snd).sum

/-- Number of aggressive phrases found (aggressive_count). -/
def aggCount (tl : List Char) : ℕ := (aggressiveHits tl).length

/-- The aggressive-language block: each present phrase adds its own severity
to the score and a red flag; risk_factors records a single
aggressive_language entry of count times 5 (only when the count is
positive). -/
def aggressivePart (tl : List Char) : RulePart :=
  { score := aggSeveritySum tl
    factors :=
      if 0 < aggCount tl then [(kAggressiveLanguage, (aggCount tl : ℚ) * 5)] else []
    flags := (aggressiveHits tl).map (fun p => .aggressiveLanguage p.1) }

/-- The unfavorable_clauses table of _assess_risks with its per-clause
severities. -/
def unfavorableClauses : List (List Char × ℚ) := [
  (txt (r"landlord not responsible"), 8),
  (txt (r"tenant assumes all risk"), 10),
  (txt (r"no warranty"), 6),
  (txt (r"as-is condition"), 7),
  (txt (r"tenant liable for all damages"), 9),
  (txt (r"no repairs by landlord"), 12),
  (txt (r"waiver of habitability"), 15)]

/-- The unfavorable clauses present in the lowercased text, in table order. -/
def unfavorableHits (tl : List Char) : List (List Char × ℚ) :=
  unfavorableClauses.filter (fun p => containsSub tl p.1)

/-- Sum of the severities the unfavorable-clause loop adds to risk_score. -/
def unfavSeveritySum (tl : List Char) : ℚ := ((unfavorableHits tl).map Prod.snd).sum

/-- Number of unfavorable clauses found (unfavorable_count). -/
def unfavCount (tl : List Char) : ℕ := (unfavorableHits tl).length

/-- The unfavorable-clause block: each present clause adds its own severity
to the score and a red flag; risk_factors records a single
unfavorable_terms entry of count times 7 (only when the count is
positive). -/
def unfavorablePart (tl : List Char) : RulePart :=
  { score := unfavSeveritySum tl
    factors :=
      if 0 < unfavCount tl then [(kUnfavorableTerms, (unfavCount tl : ℚ) * 7)] else []
    flags := (unfavorableHits tl).map (fun p => .unfavorableClause p.1) }

def kDiscrimination : List Char := txt (r"discrimination")

def kIllegalFees : List Char := txt (r"illegal_fees")

def kHabitability : List Char := txt (r"habitability")

/-- The compliance_patterns dict of the engine constructor, in insertion
order. -/
def compliancePatterns : List (List Char × List RE) := [
  (kDiscrimination, discriminationPatterns),
  (kIllegalFees, illegalFeesPatterns),
  (kHabitability, habitabilityPatterns)]

/-- All findall results of a category, concatenated over its patterns
(violations_found). -/
def violationsFound (ps : List RE) (tl : List Char) : List (List Char) :=
  ps.flatMap (fun p => pyFindall p tl)

/-- Category severity: 25 for discrimination, 15 otherwise. -/
def complianceSeverity (cat : List Char) : ℚ := if cat = kDiscrimination then 25 else 15

/-- One compliance category block: when any pattern of the category matches,
add the category severity to the score and to risk_factors (under
compliance_ prefixed with the category name), append a compliance issue
with the instance count, and a critical-priority mitigation. -/
def complianceCatPart (tl : List Char) (cat : List Char × List RE) : RulePart :=
  let found := violationsFound cat.2 tl
  if found.isEmpty then {}
  else
    { score := complianceSeverity cat.1
      factors := [(txt (r"compliance_") ++ cat.1, complianceSeverity cat.1)]
      issues := [.potentialViolation cat.1 found.length]
      mitigations := [.complianceReview cat.1] }

/-- The whole compliance block of _assess_risks, categories in dict order. -/
def compliancePart (tl : List Char) : RulePart :=
  combineParts (compliancePatterns.map (complianceCatPart tl))

/-- All rule blocks of _assess_risks in execution order: the five financial
rules, the aggressive-language loop, the unfavorable-clause loop, the
compliance loop. -/
def riskParts (text : List Char) (m : BusinessMetrics) : RulePart :=
  let tl := pyLower text
  combineParts [depositPart m, terminationPart m, noticePart m, lateFeePart m,
    appFeePart m, aggressivePart tl, unfavorablePart tl, compliancePart tl]

/-- The raw accumulated risk score (the risk_score local variable just
before classification). -/
def rawRiskScore (text : List Char) (m : BusinessMetrics) : ℚ :=
  (riskParts text m).score

/-- Python min on rationals. -/
def qmin (a b : ℚ) : ℚ := if a ≤ b then a else b

/-- Python max on rationals. -/
def qmax (a b : ℚ) : ℚ := if a ≤ b then b else a

/-- Risk-level classification from the raw score against the config
thresholds 25 / 50 / 75. -/
def classifyRisk (s : ℚ) : RiskLevel :=
  if s ≤ AnalysisConfig.RISK_LOW_THRESHOLD then .low
  else if s ≤ AnalysisConfig.RISK_MEDIUM_THRESHOLD then .medium
  else if s ≤ AnalysisConfig.RISK_HIGH_THRESHOLD then .high
  else .critical

/-- _calculate_financial_exposure: deposit plus termination penalty plus two
months of rent. -/
def calculateFinancialExposure (m : BusinessMetrics) : ℚ :=
  m.security_deposit + m.early_termination_penalty + m.monthly_rent * 2

/-- The favorable_patterns table of _identify_tenant_favorable_terms. -/
def tenantFavorablePatterns : List (List Char × FavorableTerm) := [
  (txt (r"landlord responsible for repairs"), .landlordRepairs),
  (txt (r"rent includes utilities"), .utilitiesIncluded),
  (txt (r"no pet deposit"), .noPetDeposit),
  (txt (r"month-to-month"), .monthToMonth)]

/-- _identify_tenant_favorable_terms. -/
def tenantFavorableTerms (text : List Char) : List FavorableTerm :=
  (tenantFavorablePatterns.filter (fun p => containsSub (pyLower text) p.1)).map Prod.snd

/-- The landlord_patterns table of _identify_landlord_favorable_terms. -/
def landlordFavorablePatterns : List (List Char × FavorableTerm) := [
  (txt (r"tenant responsible for all repairs"), .tenantAllRepairs),
  (txt (r"no warranty"), .soldAsIs),
  (txt (r"liquidated damages"), .liquidatedDamages),
  (txt (r"automatic renewal"), .autoRenewal)]

/-- _identify_landlord_favorable_terms. -/
def landlordFavorableTerms (text : List Char) : List FavorableTerm :=
  (landlordFavorablePatterns.filter (fun p => containsSub (pyLower text) p.1)).map Prod.snd

/-- _assess_risks: accumulate all rule blocks, generate recommendations from
the final metric and score state, classify the risk level from the raw
score and store min(raw, 100). -/
def assessRisks (text : List Char) (m : BusinessMetrics) : RiskAssessment :=
  let parts := riskParts text m
  let raw := parts.score
  let recs : List Recommendation :=
    (if m.security_deposit > m.monthly_rent * 1.5 then
      [.negotiateDeposit m.security_deposit (m.monthly_rent * 1.5)]
     else [])
    ++ (if m.notice_period_days > 30 then [.reduceNotice m.notice_period_days] else [])
    ++ (if raw > AnalysisConfig.RISK_HIGH_THRESHOLD then
          [.engageLegalCounsel, .documentConcerns]
        else if raw > AnalysisConfig.RISK_MEDIUM_THRESHOLD then
          [.legalReviewHighRisk]
        else [])
    ++ (if 0 < parts.issues.length then [.removeIllegalClauses] else [])
    ++ (if 5 < parts.flags.length then [.considerAlternatives] else [])
  { risk_level := classifyRisk raw
    risk_score := qmin raw 100
    financial_exposure := calculateFinancialExposure m
    compliance_issues := parts.issues
    tenant_favorable_terms := tenantFavorableTerms text
    landlord_favorable_terms := landlordFavorableTerms text
    red_flags := parts.flags
    recommendations := recs
    risk_factors := parts.factors
    mitigation_strategies := parts.mitigations }

/-! Market analysis (_analyze_market_position). -/

inductive MarketPosition where
  | below_market
  | market_rate
  | above_market
deriving DecidableEq

inductive FeeComp where
  | fee_above_market
  | fee_below_market
deriving DecidableEq

inductive NoticeFav where
  | tenant_favorable
  | landlord_favorable
deriving DecidableEq

/-- The market-analysis record (the dict returned by
_analyze_market_position; overall_market_position is the constant string
competitive and is omitted as carrying no data). -/
structure MarketAnalysis where
  rent_vs_market : MarketPosition
  security_deposit_ratio : ℚ
  pet_fee_competitiveness : FeeComp
  notice_period_favorability : NoticeFav
  cost_efficiency_score : ℚ
deriving DecidableEq

/-- _compare_to_market against the simulated market rent range 2200-2800. -/
def compareToMarket (value lo hi : ℚ) : MarketPosition :=
  if value < lo then .below_market
  else if value > hi then .above_market
  else .market_rate

/-- _calculate_cost_efficiency: four sub-scores, each capped at 25. -/
def calculateCostEfficiency (m : BusinessMetrics) : ℚ :=
  if m.total_monthly_cost = 0 then 0
  else
    (if m.security_deposit > 0 then qmin (m.monthly_rent / m.security_deposit * 10) 25
     else 25)
    + (if m.pet_fees ≤ 50 then 25 else 10)
    + (if m.notice_period_days ≤ 30 then 25 else 10)
    + (if m.early_termination_penalty ≤ m.monthly_rent then 25 else 10)

/-- _analyze_market_position with the hardcoded simulated benchmarks. -/
def analyzeMarketPosition (m : BusinessMetrics) : MarketAnalysis :=
  { rent_vs_market := compareToMarket m.monthly_rent 2200 2800
    security_deposit_ratio :=
      if m.monthly_rent > 0 then m.security_deposit / m.monthly_rent else 0
    pet_fee_competitiveness :=
      if m.pet_fees > 25 then .fee_above_market else .fee_below_market
    notice_period_favorability :=
      if m.notice_period_days ≤ 30 then .tenant_favorable else .landlord_favorable
    cost_efficiency_score := calculateCostEfficiency m }

/-! Portfolio insights (_generate_portfolio_insights). -/

inductive PropertyClass where
  | luxury
  | mid_market
  | affordable
deriving DecidableEq

inductive Attractiveness where
  | highly_attractive
  | attractive
  | moderate
  | unattractive
deriving DecidableEq

structure PortfolioInsights where
  property_classification : PropertyClass
  retention_probability : ℚ
  revenue_optimization_potential : ℚ
  operational_efficiency_score : ℚ
  investment_attractiveness : Attractiveness
  portfolio_fit_score : ℚ
deriving DecidableEq

/-- _classify_property by rent bands 3000 / 2000. -/
def classifyProperty (m : BusinessMetrics) : PropertyClass :=
  if m.monthly_rent ≥ 3000 then .luxury
  else if m.monthly_rent ≥ 2000 then .mid_market
  else .affordable

/-- _estimate_retention_probability. -/
def estimateRetentionProbability (m : BusinessMetrics) (risk : RiskAssessment) : ℚ :=
  let basePenalty := risk.risk_score / 100 * 0.3
  let p1 :=
    if m.monthly_rent > 0 ∧ m.security_deposit / m.monthly_rent > 2 then
      basePenalty + 0.1
    else basePenalty
  let p2 := if m.notice_period_days > 60 then p1 + 0.1 else p1
  qmax (0.7 - p2) 0.1

/-- _calculate_revenue_potential against the simulated market rent 2600. -/
def calculateRevenuePotential (m : BusinessMetrics) : ℚ :=
  if m.monthly_rent > 0 then qmax ((2600 - m.monthly_rent) * 12) 0 else 0

/-- _calculate_operational_efficiency. -/
def calculateOperationalEfficiency (risk : RiskAssessment) : ℚ :=
  qmax (100 - risk.risk_score) 0

/-- _assess_investment_attractiveness. -/
def assessInvestmentAttractiveness (m : BusinessMetrics) (risk : RiskAssessment) :
    Attractiveness :=
  let score0 := 100 - risk.risk_score
  let score1 := if m.monthly_rent ≥ 2500 then score0 + 10 else score0
  let score2 := if m.lease_duration_months ≥ 12 then score1 + 5 else score1
  if score2 ≥ 80 then .highly_attractive
  else if score2 ≥ 60 then .attractive
  else if score2 ≥ 40 then .moderate
  else .unattractive

/-- _calculate_portfolio_fit. -/
def calculatePortfolioFit (m : BusinessMetrics) : ℚ :=
  qmin 85 (qmax 15 (50 + m.monthly_rent / 100))

/-- _generate_portfolio_insights. -/
def generatePortfolioInsights (m : BusinessMetrics) (risk : RiskAssessment) :
    PortfolioInsights :=
  { property_classification := classifyProperty m
    retention_probability := estimateRetentionProbability m risk
    revenue_optimization_potential := calculateRevenuePotential m
    operational_efficiency_score := calculateOperationalEfficiency risk
    investment_attractiveness := assessInvestmentAttractiveness m risk
    portfolio_fit_score := calculatePortfolioFit m }

/-! Revenue opportunities (_identify_revenue_opportunities). -/

inductive OppType where
  | rent_optimization
  | parking_monetization
  | utility_recovery
deriving DecidableEq

inductive Effort where
  | low
  | medium
  | high
deriving DecidableEq

/-- A revenue opportunity dict; the description string is determined by the
type and is omitted as carrying no extra data. -/
structure RevenueOpportunity where
  otype : OppType
  annual_impact : ℚ
  implementation_effort : Effort
  timeline : List Char
deriving DecidableEq

/-- _identify_revenue_opportunities: three independent checks, each adding
zero or one opportunity, against the simulated market rent 2600. -/
def identifyRevenueOpportunities (m : BusinessMetrics) (text : List Char) :
    List RevenueOpportunity :=
  (if m.monthly_rent < 2600 * 0.95 then
    [{ otype := .rent_optimization, annual_impact := (2600 - m.monthly_rent) * 12,
       implementation_effort := .low, timeline := txt (r"30-60 days") }]
   else [])
  ++ (if containsSub (pyLower text) (txt (r"parking"))
        && !containsSub (pyLower text) (txt (r"fee")) then
       [{ otype := .parking_monetization, annual_impact := 600,
          implementation_effort := .medium, timeline := txt (r"60-90 days") }]
      else [])
  ++ (if decide (m.utility_costs = 0)
        && !containsSub (pyLower text) (txt (r"tenant pays utilities")) then
       [{ otype := .utility_recovery, annual_impact := 1200,
          implementation_effort := .high, timeline := txt (r"90-120 days") }]
      else [])

/-! The compliance checker (_analyze_compliance). -/

inductive ComplianceViolation where
  | discriminatoryLanguage (term : List Char)
  | nonRefundableDeposit
  | missingDisclosures (ds : List (List Char))
deriving DecidableEq

inductive ComplianceRec where
  | removeDiscriminatory
  | reviewDepositLaws
  | addDisclosures
deriving DecidableEq

inductive CRiskLevel where
  | low
  | medium
  | high
deriving DecidableEq

structure ComplianceReport where
  compliance_score : ℚ
  violations : List ComplianceViolation
  recommendations : List ComplianceRec
  risk_level : CRiskLevel
deriving DecidableEq

/-- The discriminatory_language table of _analyze_compliance. -/
def discriminatoryLanguage : List (List Char) := [
  txt (r"no children"), txt (r"adults only"), txt (r"mature individuals preferred"),
  txt (r"quiet tenants only"), txt (r"professional tenants")]

/-- The required_disclosures table of _analyze_compliance. -/
def requiredDisclosures : List (List Char) := [
  txt (r"lead paint"), txt (r"mold"), txt (r"asbestos"), txt (r"crime statistics")]

/-- Discriminatory phrases present in the lowercased text, in table order. -/
def discriminatoryHits (tl : List Char) : List (List Char) :=
  discriminatoryLanguage.filter (fun t => containsSub tl t)

/-- Required disclosures absent from the lowercased text, in table order. -/
def missingDisclosures (tl : List Char) : List (List Char) :=
  requiredDisclosures.filter (fun d => !containsSub tl d)

/-- _analyze_compliance: start at 100, subtract 25 per discriminatory phrase
found (each appending a violation and a recommendation), 15 for the
non-refundable-deposit phrase, 5 per missing disclosure (one collective
violation and recommendation); the returned score is floored at 0 while
the risk level is bucketed from the unfloored score at 70 / 85. -/
def analyzeCompliance (text : List Char) : ComplianceReport :=
  let tl := pyLower text
  let dHits := discriminatoryHits tl
  let nr := containsSub tl (txt (r"non-refundable deposit"))
  let md := missingDisclosures tl
  let score : ℚ :=
    100 - 25 * dHits.length - (if nr then 15 else 0) - 5 * md.length
  { compliance_score := qmax score 0
    violations :=
      dHits.map (fun t => .discriminatoryLanguage t)
      ++ (if nr then [.nonRefundableDeposit] else [])
      ++ (if md.isEmpty then [] else [.missingDisclosures md])
    recommendations :=
      dHits.map (fun _ => .removeDiscriminatory)
      ++ (if nr then [.reviewDepositLaws] else [])
      ++ (if md.isEmpty then [] else [.addDisclosures])
    risk_level := if score < 70 then .high else if score < 85 then .medium else .low }

/-! Document-level analysis (analyze_document). -/

/-- The key_terms table of _calculate_confidence_score. -/
def keyTerms : List (List Char) := [
  txt (r"rent"), txt (r"deposit"), txt (r"tenant"), txt (r"landlord"), txt (r"term")]

/-- _calculate_confidence_score: base 50, text-length bonuses at 10000 /
5000 characters, 15 for the phrase lease agreement, 3 per key term present,
capped at 95. -/
def calculateConfidenceScore (text : List Char) : ℚ :=
  let base : ℚ :=
    50
    + (if 10000 < text.length then 20 else if 5000 < text.length then 10 else 0)
    + (if containsSub (pyLower text) (txt (r"lease agreement")) then 15 else 0)
    + 3 * ((keyTerms.filter (fun t => containsSub (pyLower text) t)).length : ℚ)
  qmin base 95

/-- The extraction_data input of analyze_document, reduced to the full_text
field the engine reads. -/
structure ExtractionData where
  full_text : List Char
deriving DecidableEq

/-- The analysis record returned by analyze_document. analysis_timestamp is
datetime.now(), modelled as an explicit clock argument. -/
structure DocumentAnalysis where
  business_metrics : BusinessMetrics
  risk_assessment : RiskAssessment
  market_analysis : MarketAnalysis
  portfolio_insights : PortfolioInsights
  revenue_opportunities : List RevenueOpportunity
  compliance_report : ComplianceReport
  analysis_timestamp : ℕ
  confidence_score : ℚ
deriving DecidableEq

/-- analyze_document: extract metrics, then run the risk scorer, market
analyzer, insight generator, opportunity finder, compliance checker and
confidence heuristic over the same text and metrics. The clock argument
stands for datetime.now(). -/
def analyzeDocument (d : ExtractionData) (now : ℕ) : DocumentAnalysis :=
  let full_text := d.full_text
  let metrics := extractBusinessMetrics full_text
  let risk := assessRisks full_text metrics
  { business_metrics := metrics
    risk_assessment := risk
    market_analysis := analyzeMarketPosition metrics
    portfolio_insights := generatePortfolioInsights metrics risk
    revenue_opportunities := identifyRevenueOpportunities metrics full_text
    compliance_report := analyzeCompliance full_text
    analysis_timestamp := now
    confidence_score := calculateConfidenceScore full_text }

/-! The portfolio analyzer (PortfolioAnalyzer.analyze_portfolio). -/

/-- The risk_distribution counters, keyed by risk-level value. -/
structure RiskDistribution where
  low : ℕ := 0
  medium : ℕ := 0
  high : ℕ := 0
  critical : ℕ := 0
deriving DecidableEq

def bumpDistribution (d : RiskDistribution) : RiskLevel → RiskDistribution
  | .low => { d with low := d.low + 1 }
  | .medium => { d with medium := d.medium + 1 }
  | .high => { d with high := d.high + 1 }
  | .critical => { d with critical := d.critical + 1 }

/-- A portfolio-level optimization opportunity
(_identify_portfolio_opportunities): the revenue entry carries
potential_impact, the risk entry carries affected_properties and no
potential_impact key. -/
inductive PortfolioOpp where
  | revenue_optimization (potential_impact : ℚ)
  | risk_mitigation (affected_properties : ℕ)
deriving DecidableEq

/-- opp.get of potential_impact with default 0. -/
def oppImpact : PortfolioOpp → ℚ
  | .revenue_optimization p => p
  | .risk_mitigation _ => 0

/-- The compliance_summary dict of _summarize_portfolio_compliance. -/
structure PortfolioCompliance where
  total_violations : ℕ
  avg_compliance_score : ℚ
  common_issues : List (ComplianceViolation × ℕ)
  properties_at_risk : ℕ
deriving DecidableEq

/-- The performance_benchmarks dict of _calculate_portfolio_benchmarks
(returned only for a non-empty portfolio). -/
structure PortfolioBenchmarks where
  avg_monthly_rent : ℚ
  avg_security_deposit : ℚ
  avg_lease_value : ℚ
  avg_risk_score : ℚ
  portfolio_efficiency : ℚ
deriving DecidableEq

/-- The portfolio_insights dict of analyze_portfolio. -/
structure PortfolioInsightsAgg where
  total_properties : ℕ
  total_annual_revenue : ℚ
  total_risk_exposure : ℚ
  risk_distribution : RiskDistribution
  portfolio_risk_score : ℚ
  optimization_opportunities : List PortfolioOpp
  compliance_summary : PortfolioCompliance
  performance_benchmarks : Option PortfolioBenchmarks
deriving DecidableEq

/-- The executive_summary dict (_generate_executive_summary); annual_revenue
and optimization_potential are formatted currency strings in the source and
are modelled by the formatted amounts. -/
structure ExecutiveSummary where
  portfolio_size : ℕ
  annual_revenue : ℚ
  risk_assessment : CRiskLevel
  optimization_potential : ℚ
  key_recommendations : List PortfolioOpp
  immediate_actions_required : ℕ
deriving DecidableEq

/-- The dict returned by analyze_portfolio. -/
structure PortfolioAnalysis where
  individual_analyses : List DocumentAnalysis
  portfolio_insights : PortfolioInsightsAgg
  executive_summary : ExecutiveSummary
deriving DecidableEq

/-- Mean of a list of rationals (np.mean over a non-empty list). -/
def qmean (l : List ℚ) : ℚ := l.sum / l.length

/-- _calculate_portfolio_risk: mean risk score, 0 for an empty portfolio. -/
def calculatePortfolioRisk (analyses : List DocumentAnalysis) : ℚ :=
  if analyses.isEmpty then 0
  else qmean (analyses.map (fun a => a.risk_assessment.risk_score))

/-- _identify_portfolio_opportunities: a portfolio revenue opportunity when
the summed annual impacts exceed 50000, and a risk-mitigation opportunity
when more than 30 percent of properties are high or critical risk. -/
def identifyPortfolioOpportunities (analyses : List DocumentAnalysis) :
    List PortfolioOpp :=
  let totalPotential :=
    (analyses.map (fun a => (a.revenue_opportunities.map
      (fun o => o.annual_impact)).sum)).sum
  let highRisk :=
    (analyses.filter (fun a =>
      decide (a.risk_assessment.risk_level = RiskLevel.high)
      || decide (a.risk_assessment.risk_level = RiskLevel.critical))).length
  (if totalPotential > 50000 then [.revenue_optimization totalPotential] else [])
  ++ (if (highRisk : ℚ) > (analyses.length : ℚ) * 0.3 then
        [.risk_mitigation highRisk]
      else [])

/-- Count a violation occurrence into the insertion-ordered frequency
table. -/
def bumpIssue (l : List (ComplianceViolation × ℕ)) (v : ComplianceViolation) :
    List (ComplianceViolation × ℕ) :=
  match l with
  | [] => [(v, 1)]
  | (w, n) :: rest => if w = v then (w, n + 1) :: rest else (w, n) :: bumpIssue rest v

/-- _summarize_portfolio_compliance. -/
def summarizePortfolioCompliance (analyses : List DocumentAnalysis) :
    PortfolioCompliance :=
  let allViolations := analyses.flatMap (fun a => a.compliance_report.violations)
  { total_violations := allViolations.length
    avg_compliance_score :=
      if analyses.isEmpty then 0
      else (analyses.map (fun a => a.compliance_report.compliance_score)).sum
        / (analyses.length : ℚ)
    common_issues := allViolations.foldl bumpIssue []
    properties_at_risk :=
      (analyses.filter (fun a =>
        decide (a.compliance_report.compliance_score < 70))).length }

/-- _calculate_portfolio_benchmarks: the empty dict for an empty portfolio,
otherwise the five means. -/
def calculatePortfolioBenchmarks (analyses : List DocumentAnalysis) :
    Option PortfolioBenchmarks :=
  if analyses.isEmpty then none
  else some
    { avg_monthly_rent := qmean (analyses.map (fun a => a.business_metrics.monthly_rent))
      avg_security_deposit :=
        qmean (analyses.map (fun a => a.business_metrics.security_deposit))
      avg_lease_value :=
        qmean (analyses.map (fun a => a.business_metrics.total_lease_value))
      avg_risk_score := qmean (analyses.map (fun a => a.risk_assessment.risk_score))
      portfolio_efficiency :=
        qmean (analyses.map (fun a =>
          a.portfolio_insights.operational_efficiency_score)) }

/-- Stable insertion step for sorting opportunities by descending
potential_impact (Python sorted with reverse true is stable). -/
def insertDesc (x : PortfolioOpp) : List PortfolioOpp → List PortfolioOpp
  | [] => [x]
  | y :: ys => if oppImpact y < oppImpact x then x :: y :: ys else y :: insertDesc x ys

/-- Stable sort by descending potential_impact. -/
def sortByImpactDesc (l : List PortfolioOpp) : List PortfolioOpp :=
  l.foldr insertDesc []

/-- _generate_executive_summary: risk level bucketed at 50 / 70, top three
opportunities by potential_impact. -/
def generateExecutiveSummary (pi : PortfolioInsightsAgg) : ExecutiveSummary :=
  { portfolio_size := pi.total_properties
    annual_revenue := pi.total_annual_revenue
    risk_assessment :=
      if pi.portfolio_risk_score > 70 then .high
      else if pi.portfolio_risk_score > 50 then .medium
      else .low
    optimization_potential := (pi.optimization_opportunities.map oppImpact).sum
    key_recommendations := (sortByImpactDesc pi.optimization_opportunities).take 3
    immediate_actions_required := pi.compliance_summary.properties_at_risk }

/-- analyze_portfolio: analyze each document in input order, accumulate
revenue (through the BusinessMetrics round-trip that reruns __post_init__),
exposure and the risk distribution, then build the portfolio insights and
executive summary. The clock argument is passed to each per-document
analysis. -/
def analyzePortfolio (docs : List ExtractionData) (now : ℕ) : PortfolioAnalysis :=
  let analyses := docs.map (fun doc => analyzeDocument doc now)
  let totalRevenue :=
    (analyses.map (fun a => (postInit a.business_metrics).total_lease_value)).sum
  let totalExposure :=
    (analyses.map (fun a => a.risk_assessment.financial_exposure)).sum
  let dist :=
    analyses.foldl (fun d a => bumpDistribution d a.risk_assessment.risk_level) {}
  let insights : PortfolioInsightsAgg :=
    { total_properties := docs.length
      total_annual_revenue := totalRevenue
      total_risk_exposure := totalExposure
      risk_distribution := dist
      portfolio_risk_score := calculatePortfolioRisk analyses
      optimization_opportunities := identifyPortfolioOpportunities analyses
      compliance_summary := summarizePortfolioCompliance analyses
      performance_benchmarks := calculatePortfolioBenchmarks analyses }
  { individual_analyses := analyses
    portfolio_insights := insights
    executive_summary := generateExecutiveSummary insights }

/-! Helper lemmas about the cascades. -/

theorem tryMoney_accept {accept : ℚ → Bool} {tl : List Char} {p : RE} {v : ℚ}
    (h : tryMoney accept tl p = some v) : accept v = true := by
  unfold tryMoney at h
  split at h
  · exact absurd h (by simp)
  · split at h
    · exact absurd h (by simp)
    · split at h
      · cases h
        assumption
      · exact absurd h (by simp)

theorem cascadeMoney_accept {ps : List RE} {accept : ℚ → Bool} {tl : List Char}
    {v : ℚ} (h : cascadeMoney ps accept tl = some v) : accept v = true := by
  induction ps with
  | nil => exact absurd h (by simp [cascadeMoney])
  | cons p rest ih =>
    unfold cascadeMoney at h
    split at h
    · cases h
      exact tryMoney_accept (by assumption)
    · exact ih h

theorem tryNat_accept {accept : ℕ → Bool} {tl : List Char} {p : RE} {v : ℕ}
    (h : tryNat accept tl p = some v) : accept v = true := by
  unfold tryNat at h
  split at h
  · exact absurd h (by simp)
  · split at h
    · exact absurd h (by simp)
    · split at h
      · cases h
        assumption
      · exact absurd h (by simp)

theorem cascadeNat_accept {ps : List RE} {accept : ℕ → Bool} {tl : List Char}
    {v : ℕ} (h : cascadeNat ps accept tl = some v) : accept v = true := by
  induction ps with
  | nil => exact absurd h (by simp [cascadeNat])
  | cons p rest ih =>
    unfold cascadeNat at h
    split at h
    · cases h
      exact tryNat_accept (by assumption)
    · exact ih h

/-- A property holding at 0 and at every accepted value holds at the
defaulted cascade result. -/
theorem cascadeMoney_getD {ps : List RE} {accept : ℚ → Bool} {tl : List Char}
    {P : ℚ → Prop} (h0 : P 0) (hacc : ∀ v, accept v = true → P v) :
    P ((cascadeMoney ps accept tl).getD 0) := by
  cases h : cascadeMoney ps accept tl with
  | none => simpa using h0
  | some v => simpa using hacc v (cascadeMoney_accept h)

theorem cascadeNat_getD {ps : List RE} {accept : ℕ → Bool} {tl : List Char}
    {P : ℕ → Prop} (h0 : P 0) (hacc : ∀ v, accept v = true → P v) :
    P ((cascadeNat ps accept tl).getD 0) := by
  cases h : cascadeNat ps accept tl with
  | none => simpa using h0
  | some v => simpa using hacc v (cascadeNat_accept h)

theorem rentAccept_bounds {v : ℚ} (h : rentAccept v = true) : 100 ≤ v ∧ v ≤ 100000 := by
  simpa [rentAccept, AnalysisConfig.MIN_RENT, AnalysisConfig.MAX_RENT] using h

theorem depositAccept_bounds {v : ℚ} (h : depositAccept v = true) :
    0 ≤ v ∧ v ≤ 100000 := by
  simpa [depositAccept, AnalysisConfig.MIN_DEPOSIT, AnalysisConfig.MAX_DEPOSIT] using h

theorem petAccept_bounds {v : ℚ} (h : petAccept v = true) : 0 ≤ v ∧ v ≤ 10000 := by
  simpa [petAccept, AnalysisConfig.MIN_PET_FEE, AnalysisConfig.MAX_PET_FEE] using h

theorem lateAccept_bounds {v : ℚ} (h : lateAccept v = true) : 0 ≤ v ∧ v ≤ 500 := by
  simpa [lateAccept] using h

theorem appAccept_bounds {v : ℚ} (h : appAccept v = true) : 0 ≤ v ∧ v ≤ 500 := by
  simpa [appAccept] using h

theorem parkingAccept_bounds {v : ℚ} (h : parkingAccept v = true) :
    0 ≤ v ∧ v ≤ 1000 := by
  simpa [parkingAccept] using h

theorem termAccept_bounds {v : ℚ} (h : termAccept v = true) : 0 ≤ v := by
  simpa [termAccept] using h

theorem noticeAccept_bounds {v : ℕ} (h : noticeAccept v = true) :
    1 ≤ v ∧ v ≤ 365 := by
  simpa [noticeAccept, AnalysisConfig.MIN_NOTICE_PERIOD,
    AnalysisConfig.MAX_NOTICE_PERIOD] using h

theorem leaseAccept_bounds {v : ℕ} (h : leaseAccept v = true) :
    1 ≤ v ∧ v ≤ 60 := by
  simpa [leaseAccept, AnalysisConfig.MIN_LEASE_TERM,
    AnalysisConfig.MAX_LEASE_TERM] using h

/-! Claims. -/

/-- C5: every metric field returned by the extractor is either its default 0
or lies within the configured range of its kind (rent 100-100000, deposit
0-100000, pet fee 0-10000, notice period 1-365 days, lease term 1-60
months, late fee 0-500, application fee 0-500, parking fee 0-1000,
termination penalty non-negative), and the ordered cascade accepts the
first pattern whose first match parses in range and stops: the value of an
accepting first pattern is the cascade result, with later patterns
ignored. -/
theorem c5_extracted_metric_ranges (text : List Char) :
    ((extractBusinessMetrics text).monthly_rent = 0 ∨
      (100 ≤ (extractBusinessMetrics text).monthly_rent ∧
        (extractBusinessMetrics text).monthly_rent ≤ 100000))
    ∧ (0 ≤ (extractBusinessMetrics text).security_deposit ∧
        (extractBusinessMetrics text).security_deposit ≤ 100000)
    ∧ (0 ≤ (extractBusinessMetrics text).pet_fees ∧
        (extractBusinessMetrics text).pet_fees ≤ 10000)
    ∧ ((extractBusinessMetrics text).notice_period_days = 0 ∨
        (1 ≤ (extractBusinessMetrics text).notice_period_days ∧
          (extractBusinessMetrics text).notice_period_days ≤ 365))
    ∧ ((extractBusinessMetrics text).lease_duration_months = 0 ∨
        (1 ≤ (extractBusinessMetrics text).lease_duration_months ∧
          (extractBusinessMetrics text).lease_duration_months ≤ 60))
    ∧ (0 ≤ (extractBusinessMetrics text).late_fee ∧
        (extractBusinessMetrics text).late_fee ≤ 500)
    ∧ (0 ≤ (extractBusinessMetrics text).application_fee ∧
        (extractBusinessMetrics text).application_fee ≤ 500)
    ∧ (0 ≤ (extractBusinessMetrics text).parking_fee ∧
        (extractBusinessMetrics text).parking_fee ≤ 1000)
    ∧ 0 ≤ (extractBusinessMetrics text).early_termination_penalty
    ∧ (∀ p ps accept v, tryMoney accept (pyLower (ocrClean text)) p = some v →
        cascadeMoney (p :: ps) accept (pyLower (ocrClean text)) = some v) := by
  refine ⟨?_, ?_, ?_, ?_, ?_, ?_, ?_, ?_, ?_, ?_⟩
  · exact @cascadeMoney_getD rentPatterns rentAccept (pyLower (ocrClean text))
      (fun v => v = 0 ∨ (100 ≤ v ∧ v ≤ 100000)) (Or.inl rfl)
      (fun v hv => Or.inr (rentAccept_bounds hv))
  · exact @cascadeMoney_getD securityDepositPatterns depositAccept
      (pyLower (ocrClean text)) (fun v => 0 ≤ v ∧ v ≤ 100000)
      (by norm_num) (fun v hv => depositAccept_bounds hv)
  · exact @cascadeMoney_getD petFeePatterns petAccept (pyLower (ocrClean text))
      (fun v => 0 ≤ v ∧ v ≤ 10000) (by norm_num) (fun v hv => petAccept_bounds hv)
  · exact @cascadeNat_getD noticePeriodPatterns noticeAccept
      (pyLower (ocrClean text)) (fun v => v = 0 ∨ (1 ≤ v ∧ v ≤ 365))
      (Or.inl rfl) (fun v hv => Or.inr (noticeAccept_bounds hv))
  · exact @cascadeNat_getD leaseTermPatterns leaseAccept (pyLower (ocrClean text))
      (fun v => v = 0 ∨ (1 ≤ v ∧ v ≤ 60)) (Or.inl rfl)
      (fun v hv => Or.inr (leaseAccept_bounds hv))
  · exact @cascadeMoney_getD lateFeePatterns lateAccept (pyLower (ocrClean text))
      (fun v => 0 ≤ v ∧ v ≤ 500) (by norm_num) (fun v hv => lateAccept_bounds hv)
  · exact @cascadeMoney_getD applicationFeePatterns appAccept
      (pyLower (ocrClean text)) (fun v => 0 ≤ v ∧ v ≤ 500) (by norm_num)
      (fun v hv => appAccept_bounds hv)
  · exact @cascadeMoney_getD parkingFeePatterns parkingAccept
      (pyLower (ocrClean text)) (fun v => 0 ≤ v ∧ v ≤ 1000) (by norm_num)
      (fun v hv => parkingAccept_bounds hv)
  · exact @cascadeMoney_getD terminationFeePatterns termAccept
      (pyLower (ocrClean text)) (fun v => 0 ≤ v) (by norm_num)
      (fun v hv => termAccept_bounds hv)
  · intro p ps accept v h
    unfold cascadeMoney
    rw [h]

/-- Witness for C5 at a concrete document: the first security-deposit
pattern accepts 500 on the text security deposit dollars 500, so the whole
cascade returns 500 and the extracted deposit is in range. -/
theorem c5_extracted_metric_ranges_witness :
    cascadeMoney securityDepositPatterns depositAccept
      (pyLower (ocrClean (txt (r"security deposit $500")))) = some 500 :=
  (c5_extracted_metric_ranges (txt (r"security deposit $500"))).2.2.2.2.2.2.2.2.2
    (securityDepositPatterns.headD RE.eps) securityDepositPatterns.tail
    depositAccept 500 (by decide)

/-- C6: the derived fields of every extracted BusinessMetrics are recomputed
from the final component values: total_monthly_cost is the sum of rent, pet
fees, utility costs and parking fee, and total_lease_value is
total_monthly_cost times the lease duration when the duration is positive
and 0 when it is 0. -/
theorem c6_derived_fields (text : List Char) :
    (extractBusinessMetrics text).total_monthly_cost =
      (extractBusinessMetrics text).monthly_rent
      + (extractBusinessMetrics text).pet_fees
      + (extractBusinessMetrics text).utility_costs
      + (extractBusinessMetrics text).parking_fee
    ∧ (extractBusinessMetrics text).total_lease_value =
        (if (extractBusinessMetrics text).lease_duration_months > 0 then
          (extractBusinessMetrics text).total_monthly_cost
            * ((extractBusinessMetrics text).lease_duration_months : ℚ)
        else 0) :=
  ⟨rfl, rfl⟩

/-- Modelled from the spec for claim C3 only: extraction_confidence as the
claim states it, the arithmetic mean over exactly the four metric kinds
rent (0.9), deposit (0.85), notice period (0.8) and lease term (0.85),
where a kind that is never matched contributes 0 to the same list. The
source definition (extractBusinessMetrics) is compared against this. -/
def claimC3Confidence (text : List Char) : ℚ :=
  let tl := pyLower (ocrClean text)
  let entries : List ℚ :=
    [if (cascadeMoney rentPatterns rentAccept tl).isSome then (0.9 : ℚ) else 0,
     if (cascadeMoney securityDepositPatterns depositAccept tl).isSome then (0.85 : ℚ) else 0,
     if (cascadeNat noticePeriodPatterns noticeAccept tl).isSome then (0.8 : ℚ) else 0,
     if (cascadeNat leaseTermPatterns leaseAccept tl).isSome then (0.85 : ℚ) else 0]
  if entries.isEmpty then 0 else entries.sum / entries.length

/-- C3 counterexample: on the document 30 day notice, only the notice
period is extracted; the code averages over the three confidence entries
actually appended (rent 0, deposit 0, notice 0.8), giving 0.8 / 3 = 4/15,
while the mean the claim asks for over the four metric kinds is 0.8 / 4 = 1/5; the
two values differ. -/
theorem c3_counterexample :
    (extractBusinessMetrics (txt (r"30 day notice"))).extraction_confidence = mkRat 4 15
    ∧ claimC3Confidence (txt (r"30 day notice")) = mkRat 1 5
    ∧ (mkRat 4 15 : ℚ) = 4 / 15 ∧ (mkRat 1 5 : ℚ) = 1 / 5
    ∧ decide ((mkRat 4 15 : ℚ) = mkRat 1 5) = false := by
  have hr : cascadeMoney rentPatterns rentAccept
      (pyLower (ocrClean (txt (r"30 day notice")))) = none := by decide
  have hd : cascadeMoney securityDepositPatterns depositAccept
      (pyLower (ocrClean (txt (r"30 day notice")))) = none := by decide
  have hp : cascadeMoney petFeePatterns petAccept
      (pyLower (ocrClean (txt (r"30 day notice")))) = none := by decide
  have hn : cascadeNat noticePeriodPatterns noticeAccept
      (pyLower (ocrClean (txt (r"30 day notice")))) = some 30 := by decide
  have hl : cascadeNat leaseTermPatterns leaseAccept
      (pyLower (ocrClean (txt (r"30 day notice")))) = none := by decide
  refine ⟨?_, ?_, ?_, ?_, by decide⟩
  · have hc : (extractCore (txt (r"30 day notice"))).2 = [0, 0, (0.8 : ℚ)] := by
      simp only [extractCore, hr, hd, hp, hn, hl]
      norm_num
    simp only [extractBusinessMetrics, hc]
    rw [Rat.mkRat_eq_divInt, Rat.divInt_eq_div]
    norm_num
  · simp only [claimC3Confidence, hr, hd, hn, hl]
    rw [Rat.mkRat_eq_divInt, Rat.divInt_eq_div]
    norm_num
  · rw [Rat.mkRat_eq_divInt, Rat.divInt_eq_div]
    norm_num
  · rw [Rat.mkRat_eq_divInt, Rat.divInt_eq_div]
    norm_num

/-- C3 amended: extraction_confidence is the mean of the confidence list the
code actually builds, in which rent always contributes an entry (0.9 on
success, 0.0 on failure), the deposit always contributes an entry (0.85 or
0.0), while pet fee (0.75), notice period (0.8) and lease term (0.85)
contribute an entry only on success and nothing at all when unmatched; the
list therefore always has between 2 and 5 entries (never zero), and the
claimed division by the fixed four metric kinds does not occur. -/
theorem c3_confidence_amended (text : List Char) :
    (extractCore text).2 =
      [if (cascadeMoney rentPatterns rentAccept (pyLower (ocrClean text))).isSome
        then (0.9 : ℚ) else 0,
       if (cascadeMoney securityDepositPatterns depositAccept
          (pyLower (ocrClean text))).isSome then (0.85 : ℚ) else 0]
      ++ (if (cascadeMoney petFeePatterns petAccept
            (pyLower (ocrClean text))).isSome then [(0.75 : ℚ)] else [])
      ++ (if (cascadeNat noticePeriodPatterns noticeAccept
            (pyLower (ocrClean text))).isSome then [(0.8 : ℚ)] else [])
      ++ (if (cascadeNat leaseTermPatterns leaseAccept
            (pyLower (ocrClean text))).isSome then [(0.85 : ℚ)] else [])
    ∧ (extractBusinessMetrics text).extraction_confidence =
        ((extractCore text).2).sum / (((extractCore text).2).length : ℚ)
    ∧ 2 ≤ ((extractCore text).2).length ∧ ((extractCore text).2).length ≤ 5 := by
  have hc : (extractCore text).2 =
      [if (cascadeMoney rentPatterns rentAccept (pyLower (ocrClean text))).isSome
        then (0.9 : ℚ) else 0,
       if (cascadeMoney securityDepositPatterns depositAccept
          (pyLower (ocrClean text))).isSome then (0.85 : ℚ) else 0]
      ++ (if (cascadeMoney petFeePatterns petAccept
            (pyLower (ocrClean text))).isSome then [(0.75 : ℚ)] else [])
      ++ (if (cascadeNat noticePeriodPatterns noticeAccept
            (pyLower (ocrClean text))).isSome then [(0.8 : ℚ)] else [])
      ++ (if (cascadeNat leaseTermPatterns leaseAccept
            (pyLower (ocrClean text))).isSome then [(0.85 : ℚ)] else []) := rfl
  refine ⟨hc, rfl, ?_, ?_⟩
  · rw [hc]
    split_ifs <;> simp
  · rw [hc]
    split_ifs <;> simp

/-- C10: the extractor never assigns utility_costs (the utilities pattern
table is defined but never evaluated), so the field is 0 for every
document, total_monthly_cost reduces to rent plus pet fees plus parking
fee with no utilities component, and the utility_recovery revenue
opportunity is generated exactly when the lowercased text does not contain
the phrase tenant pays utilities. -/
theorem c10_utility_costs (d : ExtractionData) (now : ℕ) :
    (analyzeDocument d now).business_metrics.utility_costs = 0
    ∧ (analyzeDocument d now).business_metrics.total_monthly_cost =
        (analyzeDocument d now).business_metrics.monthly_rent
        + (analyzeDocument d now).business_metrics.pet_fees
        + (analyzeDocument d now).business_metrics.parking_fee
    ∧ ((analyzeDocument d now).revenue_opportunities.any
          (fun o => decide (o.otype = OppType.utility_recovery)))
        = !containsSub (pyLower d.full_text) (txt (r"tenant pays utilities")) := by
  refine ⟨rfl, ?_, ?_⟩
  · have h1 : (analyzeDocument d now).business_metrics.total_monthly_cost =
        (analyzeDocument d now).business_metrics.monthly_rent
        + (analyzeDocument d now).business_metrics.pet_fees
        + (analyzeDocument d now).business_metrics.utility_costs
        + (analyzeDocument d now).business_metrics.parking_fee := rfl
    rw [h1, show (analyzeDocument d now).business_metrics.utility_costs = 0 from rfl]
    ring
  · show (identifyRevenueOpportunities (extractBusinessMetrics d.full_text)
      d.full_text).any _ = _
    unfold identifyRevenueOpportunities
    rw [show (extractBusinessMetrics d.full_text).utility_costs = 0 from rfl]
    simp only [List.any_append, decide_True, true_and, Bool.true_and]
    split_ifs <;> simp_all

/-- Modelled from the spec for claim C9 only: the number of triggered
violation categories (discriminatory language, non-refundable deposit,
missing disclosures), each of which the claim says appends one violation
and one recommendation string. -/
def claimC9TriggeredCategories (text : List Char) : ℕ :=
  let tl := pyLower text
  (if (discriminatoryHits tl).isEmpty then 0 else 1)
  + (if containsSub tl (txt (r"non-refundable deposit")) then 1 else 0)
  + (if (missingDisclosures tl).isEmpty then 0 else 1)

/-- C9 counterexample: on the text no children adults only, two
discriminatory phrases match inside the single discriminatory category and
all four disclosures are missing, so the code appends three violations
(two discriminatory plus one collective missing-disclosure entry) while
the claim predicts one per triggered category, i.e. two. -/
theorem c9_counterexample :
    (analyzeCompliance (txt (r"no children adults only"))).violations.length = 3
    ∧ claimC9TriggeredCategories (txt (r"no children adults only")) = 2
    ∧ decide ((3 : ℕ) = 2) = false := by
  refine ⟨by decide, by decide, by decide⟩

/-- C9 amended: the compliance checker starts at 100 and subtracts 25 per
discriminatory phrase found, 15 for the non-refundable-deposit phrase and
5 per missing disclosure keyword; the stored score is floored at 0 (hence
always non-negative) and the risk level is high below 70 and medium below
85, computed equivalently from the stored score; a violation and a
recommendation are appended per matched discriminatory phrase, one for the
non-refundable-deposit phrase, and a single collective violation and
recommendation for all missing disclosures together (not one per
category). -/
theorem c9_compliance_amended (text : List Char) :
    (analyzeCompliance text).compliance_score =
      qmax (100 - 25 * ((discriminatoryHits (pyLower text)).length : ℚ)
        - (if containsSub (pyLower text) (txt (r"non-refundable deposit"))
            then 15 else 0)
        - 5 * ((missingDisclosures (pyLower text)).length : ℚ)) 0
    ∧ 0 ≤ (analyzeCompliance text).compliance_score
    ∧ (analyzeCompliance text).risk_level =
        (if (analyzeCompliance text).compliance_score < 70 then CRiskLevel.high
         else if (analyzeCompliance text).compliance_score < 85 then CRiskLevel.medium
         else CRiskLevel.low)
    ∧ (analyzeCompliance text).violations.length =
        (discriminatoryHits (pyLower text)).length
        + (if containsSub (pyLower text) (txt (r"non-refundable deposit"))
            then 1 else 0)
        + (if (missingDisclosures (pyLower text)).isEmpty then 0 else 1)
    ∧ (analyzeCompliance text).recommendations.length =
        (discriminatoryHits (pyLower text)).length
        + (if containsSub (pyLower text) (txt (r"non-refundable deposit"))
            then 1 else 0)
        + (if (missingDisclosures (pyLower text)).isEmpty then 0 else 1) := by
  refine ⟨rfl, ?_, ?_, ?_, ?_⟩
  · show 0 ≤ qmax _ 0
    unfold qmax
    split_ifs <;> linarith
  · show (if (100 : ℚ) - _ - _ - _ < 70 then CRiskLevel.high else _) = _
    show _ = (if qmax _ 0 < 70 then CRiskLevel.high
      else if qmax _ 0 < 85 then CRiskLevel.medium else CRiskLevel.low)
    unfold qmax
    split_ifs <;> first | rfl | (exfalso; linarith)
  · show (List.map _ _ ++ _ ++ _).length = _
    simp only [List.length_append, List.length_map]
    split_ifs <;> simp
  · show (List.map _ _ ++ _ ++ _).length = _
    simp only [List.length_append, List.length_map]
    split_ifs <;> simp

/-! Association-list lookup over risk_factors, used to state what a factor
name records. -/

def lookupFactor (k : List Char) : List (List Char × ℚ) → Option ℚ
  | [] => none
  | p :: rest => if p.1 = k then some p.2 else lookupFactor k rest

theorem lookupFactor_append_right {k : List Char} {l1 l2 : List (List Char × ℚ)}
    (h : ∀ p ∈ l1, p.1 ≠ k) : lookupFactor k (l1 ++ l2) = lookupFactor k l2 := by
  induction l1 with
  | nil => rfl
  | cons p rest ih =>
    simp only [List.cons_append, lookupFactor]
    rw [if_neg (h p (by simp))]
    exact ih (fun q hq => h q (by simp [hq]))

theorem lookupFactor_eq_none {k : List Char} {l : List (List Char × ℚ)}
    (h : ∀ p ∈ l, p.1 ≠ k) : lookupFactor k l = none := by
  induction l with
  | nil => rfl
  | cons p rest ih =>
    simp only [lookupFactor]
    rw [if_neg (h p (by simp))]
    exact ih (fun q hq => h q (by simp [hq]))

/-- A count-guarded aggregate entry contributes count times weight even when
the guard fails, since the count is then 0. -/
theorem if_count_mul (c : ℕ) (w : ℚ) :
    (if 0 < c then (c : ℚ) * w else 0) = (c : ℚ) * w := by
  split_ifs with h
  · rfl
  · rw [Nat.eq_zero_of_not_pos h]
    push_cast
    ring

theorem depositPart_sum (m : BusinessMetrics) :
    ((depositPart m).factors.map Prod.snd).sum = (depositPart m).score := by
  unfold depositPart
  split_ifs <;> simp

theorem terminationPart_sum (m : BusinessMetrics) :
    ((terminationPart m).factors.map Prod.snd).sum = (terminationPart m).score := by
  unfold terminationPart
  split_ifs <;> simp

theorem noticePart_sum (m : BusinessMetrics) :
    ((noticePart m).factors.map Prod.snd).sum = (noticePart m).score := by
  unfold noticePart
  split_ifs <;> simp

theorem lateFeePart_sum (m : BusinessMetrics) :
    ((lateFeePart m).factors.map Prod.snd).sum = (lateFeePart m).score := by
  unfold lateFeePart
  split_ifs <;> simp

theorem appFeePart_sum (m : BusinessMetrics) :
    ((appFeePart m).factors.map Prod.snd).sum = (appFeePart m).score := by
  unfold appFeePart
  split_ifs <;> simp

theorem complianceCatPart_sum (tl : List Char) (cat : List Char × List RE) :
    ((complianceCatPart tl cat).factors.map Prod.snd).sum =
      (complianceCatPart tl cat).score := by
  unfold complianceCatPart
  dsimp only
  split_ifs <;> simp

theorem aggressivePart_factors_sum (tl : List Char) :
    ((aggressivePart tl).factors.map Prod.snd).sum =
      (if 0 < aggCount tl then (aggCount tl : ℚ) * 5 else 0) := by
  unfold aggressivePart
  split_ifs <;> simp

theorem unfavorablePart_factors_sum (tl : List Char) :
    ((unfavorablePart tl).factors.map Prod.snd).sum =
      (if 0 < unfavCount tl then (unfavCount tl : ℚ) * 7 else 0) := by
  unfold unfavorablePart
  split_ifs <;> simp

theorem aggCount_zero_sum {tl : List Char} (h : aggCount tl = 0) :
    aggSeveritySum tl = 0 := by
  unfold aggCount at h
  unfold aggSeveritySum
  rw [List.length_eq_zero] at h
  rw [h]
  simp

theorem unfavCount_zero_sum {tl : List Char} (h : unfavCount tl = 0) :
    unfavSeveritySum tl = 0 := by
  unfold unfavCount at h
  unfold unfavSeveritySum
  rw [List.length_eq_zero] at h
  rw [h]
  simp

theorem depositPart_keys (m : BusinessMetrics) :
    ∀ p ∈ (depositPart m).factors,
      p.1 = kExcessiveDeposit ∨ p.1 = kHighDeposit := by
  unfold depositPart
  split_ifs <;> simp

theorem terminationPart_keys (m : BusinessMetrics) :
    ∀ p ∈ (terminationPart m).factors,
      p.1 = kHighTerminationPenalty ∨ p.1 = kTerminationPenalty := by
  unfold terminationPart
  split_ifs <;> simp

theorem noticePart_keys (m : BusinessMetrics) :
    ∀ p ∈ (noticePart m).factors, p.1 = kExtendedNotice ∨ p.1 = kLongNotice := by
  unfold noticePart
  split_ifs <;> simp

theorem lateFeePart_keys (m : BusinessMetrics) :
    ∀ p ∈ (lateFeePart m).factors, p.1 = kExcessiveLateFee := by
  unfold lateFeePart
  split_ifs <;> simp

theorem appFeePart_keys (m : BusinessMetrics) :
    ∀ p ∈ (appFeePart m).factors, p.1 = kHighApplicationFee := by
  unfold appFeePart
  split_ifs <;> simp

theorem complianceCatPart_keys (tl : List Char) (cat : List Char × List RE) :
    ∀ p ∈ (complianceCatPart tl cat).factors,
      p.1 = txt (r"compliance_") ++ cat.1 := by
  unfold complianceCatPart
  dsimp only
  split_ifs <;> simp

theorem aggressivePart_keys (tl : List Char) :
    ∀ p ∈ (aggressivePart tl).factors, p.1 = kAggressiveLanguage := by
  unfold aggressivePart
  dsimp only
  split_ifs <;> simp

theorem unfavorablePart_keys (tl : List Char) :
    ∀ p ∈ (unfavorablePart tl).factors, p.1 = kUnfavorableTerms := by
  unfold unfavorablePart
  dsimp only
  split_ifs <;> simp

/-- C2 counterexample: on the text forfeit all rights with default metrics,
the single aggressive phrase adds its own weight 12 to the raw score (the
raw score is exactly 12), but risk_factors records 5 under
aggressive_language (count times 5), not the 12 that was added; no factor
records 12. -/
theorem c2_counterexample :
    (assessRisks (txt (r"forfeit all rights")) {}).risk_factors =
      [(kAggressiveLanguage, 5)]
    ∧ rawRiskScore (txt (r"forfeit all rights")) {} = 12
    ∧ decide ((5 : ℚ) = 12) = false := by
  have ha : aggressiveHits (pyLower (txt (r"forfeit all rights"))) =
      [(txt (r"forfeit all rights"), 12)] := by decide
  have hu : unfavorableHits (pyLower (txt (r"forfeit all rights"))) = [] := by decide
  have h1 : violationsFound discriminationPatterns
      (pyLower (txt (r"forfeit all rights"))) = [] := by decide
  have h2 : violationsFound illegalFeesPatterns
      (pyLower (txt (r"forfeit all rights"))) = [] := by decide
  have h3 : violationsFound habitabilityPatterns
      (pyLower (txt (r"forfeit all rights"))) = [] := by decide
  refine ⟨?_, ?_, by decide⟩
  · show (riskParts _ _).factors = _
    simp only [riskParts, combineParts, List.foldr_cons, List.foldr_nil,
      RulePart.append, compliancePart, compliancePatterns, List.map_cons,
      List.map_nil, complianceCatPart, aggressivePart, unfavorablePart,
      aggCount, aggSeveritySum, unfavCount, unfavSeveritySum, ha, hu, h1, h2, h3,
      depositPart, terminationPart, noticePart, lateFeePart, appFeePart]
    norm_num
  · show (riskParts _ _).score = _
    simp only [riskParts, combineParts, List.foldr_cons, List.foldr_nil,
      RulePart.append, compliancePart, compliancePatterns, List.map_cons,
      List.map_nil, complianceCatPart, aggressivePart, unfavorablePart,
      aggCount, aggSeveritySum, unfavCount, unfavSeveritySum, ha, hu, h1, h2, h3,
      depositPart, terminationPart, noticePart, lateFeePart, appFeePart]
    norm_num

/-- C2 amended: the metric-based rules and the compliance categories record
under their factor names exactly the contribution they add, but the
aggressive-language phrases (individual weights 5 to 12) and the
tenant-unfavorable clauses (weights 6 to 15), while each adding its own
weight to the raw score when present, are recorded in risk_factors only as
aggregate entries of count times 5 under aggressive_language and count
times 7 under unfavorable_terms; consequently the raw score equals the sum
of all recorded factor values plus the aggregation residues
(severity sum minus count times 5, resp. count times 7). -/
theorem c2_risk_factors_amended (text : List Char) (m : BusinessMetrics) :
    rawRiskScore text m =
      (((assessRisks text m).risk_factors.map Prod.snd).sum
        + (aggSeveritySum (pyLower text) - (aggCount (pyLower text) : ℚ) * 5)
        + (unfavSeveritySum (pyLower text) - (unfavCount (pyLower text) : ℚ) * 7))
    ∧ lookupFactor kAggressiveLanguage (assessRisks text m).risk_factors =
        (if 0 < aggCount (pyLower text) then
          some ((aggCount (pyLower text) : ℚ) * 5)
        else none)
    ∧ lookupFactor kUnfavorableTerms (assessRisks text m).risk_factors =
        (if 0 < unfavCount (pyLower text) then
          some ((unfavCount (pyLower text) : ℚ) * 7)
        else none)
    ∧ (aggressiveTerms.all
        (fun p => decide ((5 : ℚ) ≤ p.2) && decide (p.2 ≤ (12 : ℚ)))) = true
    ∧ (unfavorableClauses.all
        (fun p => decide ((6 : ℚ) ≤ p.2) && decide (p.2 ≤ (15 : ℚ)))) = true := by
  have hrf : (assessRisks text m).risk_factors = (riskParts text m).factors := rfl
  have sdep : ∀ p ∈ (depositPart m).factors, p.1 ≠ kAggressiveLanguage :=
    fun p hp => by rcases depositPart_keys m p hp with h | h <;> rw [h] <;> decide
  have sterm : ∀ p ∈ (terminationPart m).factors, p.1 ≠ kAggressiveLanguage :=
    fun p hp => by
      rcases terminationPart_keys m p hp with h | h <;> rw [h] <;> decide
  have snot : ∀ p ∈ (noticePart m).factors, p.1 ≠ kAggressiveLanguage :=
    fun p hp => by rcases noticePart_keys m p hp with h | h <;> rw [h] <;> decide
  have slate : ∀ p ∈ (lateFeePart m).factors, p.1 ≠ kAggressiveLanguage :=
    fun p hp => by rw [lateFeePart_keys m p hp]; decide
  have sapp : ∀ p ∈ (appFeePart m).factors, p.1 ≠ kAggressiveLanguage :=
    fun p hp => by rw [appFeePart_keys m p hp]; decide
  have udep : ∀ p ∈ (depositPart m).factors, p.1 ≠ kUnfavorableTerms :=
    fun p hp => by rcases depositPart_keys m p hp with h | h <;> rw [h] <;> decide
  have uterm : ∀ p ∈ (terminationPart m).factors, p.1 ≠ kUnfavorableTerms :=
    fun p hp => by
      rcases terminationPart_keys m p hp with h | h <;> rw [h] <;> decide
  have unot : ∀ p ∈ (noticePart m).factors, p.1 ≠ kUnfavorableTerms :=
    fun p hp => by rcases noticePart_keys m p hp with h | h <;> rw [h] <;> decide
  have ulate : ∀ p ∈ (lateFeePart m).factors, p.1 ≠ kUnfavorableTerms :=
    fun p hp => by rw [lateFeePart_keys m p hp]; decide
  have uapp : ∀ p ∈ (appFeePart m).factors, p.1 ≠ kUnfavorableTerms :=
    fun p hp => by rw [appFeePart_keys m p hp]; decide
  have sunf : ∀ p ∈ (unfavorablePart (pyLower text)).factors,
      p.1 ≠ kAggressiveLanguage :=
    fun p hp => by rw [unfavorablePart_keys _ p hp]; decide
  have uagg : ∀ p ∈ (aggressivePart (pyLower text)).factors,
      p.1 ≠ kUnfavorableTerms :=
    fun p hp => by rw [aggressivePart_keys _ p hp]; decide
  have sc1 : ∀ p ∈ (complianceCatPart (pyLower text)
      (kDiscrimination, discriminationPatterns)).factors,
      p.1 ≠ kAggressiveLanguage :=
    fun p hp => by rw [complianceCatPart_keys _ _ p hp]; decide
  have sc2 : ∀ p ∈ (complianceCatPart (pyLower text)
      (kIllegalFees, illegalFeesPatterns)).factors,
      p.1 ≠ kAggressiveLanguage :=
    fun p hp => by rw [complianceCatPart_keys _ _ p hp]; decide
  have sc3 : ∀ p ∈ (complianceCatPart (pyLower text)
      (kHabitability, habitabilityPatterns)).factors,
      p.1 ≠ kAggressiveLanguage :=
    fun p hp => by rw [complianceCatPart_keys _ _ p hp]; decide
  have uc1 : ∀ p ∈ (complianceCatPart (pyLower text)
      (kDiscrimination, discriminationPatterns)).factors,
      p.1 ≠ kUnfavorableTerms :=
    fun p hp => by rw [complianceCatPart_keys _ _ p hp]; decide
  have uc2 : ∀ p ∈ (complianceCatPart (pyLower text)
      (kIllegalFees, illegalFeesPatterns)).factors,
      p.1 ≠ kUnfavorableTerms :=
    fun p hp => by rw [complianceCatPart_keys _ _ p hp]; decide
  have uc3 : ∀ p ∈ (complianceCatPart (pyLower text)
      (kHabitability, habitabilityPatterns)).factors,
      p.1 ≠ kUnfavorableTerms :=
    fun p hp => by rw [complianceCatPart_keys _ _ p hp]; decide
  refine ⟨?_, ?_, ?_, by decide, by decide⟩
  · rw [hrf]
    show (riskParts text m).score = _
    simp only [riskParts, combineParts, List.foldr_cons, List.foldr_nil,
      RulePart.append, compliancePart, compliancePatterns, List.map_cons,
      List.map_nil, List.map_append, List.sum_append]
    rw [depositPart_sum, terminationPart_sum, noticePart_sum, lateFeePart_sum,
      appFeePart_sum, aggressivePart_factors_sum, unfavorablePart_factors_sum,
      complianceCatPart_sum, complianceCatPart_sum, complianceCatPart_sum,
      if_count_mul, if_count_mul]
    simp only [aggressivePart, unfavorablePart, List.sum_nil]
    ring
  · rw [hrf]
    show lookupFactor _ (riskParts text m).factors = _
    simp only [riskParts, combineParts, List.foldr_cons, List.foldr_nil,
      RulePart.append, compliancePart, compliancePatterns, List.map_cons,
      List.map_nil]
    rw [lookupFactor_append_right sdep, lookupFactor_append_right sterm,
      lookupFactor_append_right snot, lookupFactor_append_right slate,
      lookupFactor_append_right sapp]
    by_cases hca : 0 < aggCount (pyLower text)
    · simp only [aggressivePart, if_pos hca]
      simp [lookupFactor]
    · simp only [aggressivePart, if_neg hca, List.nil_append]
      rw [lookupFactor_append_right sunf, List.append_nil,
        lookupFactor_append_right sc1, lookupFactor_append_right sc2,
        lookupFactor_append_right sc3]
      rfl
  · rw [hrf]
    show lookupFactor _ (riskParts text m).factors = _
    simp only [riskParts, combineParts, List.foldr_cons, List.foldr_nil,
      RulePart.append, compliancePart, compliancePatterns, List.map_cons,
      List.map_nil]
    rw [lookupFactor_append_right udep, lookupFactor_append_right uterm,
      lookupFactor_append_right unot, lookupFactor_append_right ulate,
      lookupFactor_append_right uapp, lookupFactor_append_right uagg]
    by_cases hcu : 0 < unfavCount (pyLower text)
    · simp only [unfavorablePart, if_pos hcu]
      simp [lookupFactor]
    · simp only [unfavorablePart, if_neg hcu, List.nil_append]
      rw [List.append_nil, lookupFactor_append_right uc1,
        lookupFactor_append_right uc2, lookupFactor_append_right uc3]
      rfl

theorem depositPart_score_nonneg (m : BusinessMetrics) : 0 ≤ (depositPart m).score := by
  unfold depositPart
  split_ifs <;> norm_num

theorem terminationPart_score_nonneg (m : BusinessMetrics) :
    0 ≤ (terminationPart m).score := by
  unfold terminationPart
  split_ifs <;> norm_num

theorem noticePart_score_nonneg (m : BusinessMetrics) : 0 ≤ (noticePart m).score := by
  unfold noticePart
  split_ifs <;> norm_num

theorem lateFeePart_score_nonneg (m : BusinessMetrics) : 0 ≤ (lateFeePart m).score := by
  unfold lateFeePart
  split_ifs <;> norm_num

theorem appFeePart_score_nonneg (m : BusinessMetrics) : 0 ≤ (appFeePart m).score := by
  unfold appFeePart
  split_ifs <;> norm_num

theorem aggSeveritySum_nonneg (tl : List Char) : 0 ≤ aggSeveritySum tl := by
  unfold aggSeveritySum
  apply List.sum_nonneg
  intro x hx
  rcases List.mem_map.1 hx with ⟨p, hp, rfl⟩
  have hall : ∀ q ∈ aggressiveTerms, (0 : ℚ) ≤ q.2 := by decide
  exact hall p (List.mem_of_mem_filter hp)

theorem unfavSeveritySum_nonneg (tl : List Char) : 0 ≤ unfavSeveritySum tl := by
  unfold unfavSeveritySum
  apply List.sum_nonneg
  intro x hx
  rcases List.mem_map.1 hx with ⟨p, hp, rfl⟩
  have hall : ∀ q ∈ unfavorableClauses, (0 : ℚ) ≤ q.2 := by decide
  exact hall p (List.mem_of_mem_filter hp)

theorem complianceCatPart_score_nonneg (tl : List Char) (cat : List Char × List RE) :
    0 ≤ (complianceCatPart tl cat).score := by
  unfold complianceCatPart complianceSeverity
  dsimp only
  split_ifs <;> norm_num

theorem rawRiskScore_nonneg (text : List Char) (m : BusinessMetrics) :
    0 ≤ rawRiskScore text m := by
  show 0 ≤ (riskParts text m).score
  simp only [riskParts, combineParts, List.foldr_cons, List.foldr_nil,
    RulePart.append, compliancePart, compliancePatterns, List.map_cons,
    List.map_nil]
  apply add_nonneg (depositPart_score_nonneg m)
  apply add_nonneg (terminationPart_score_nonneg m)
  apply add_nonneg (noticePart_score_nonneg m)
  apply add_nonneg (lateFeePart_score_nonneg m)
  apply add_nonneg (appFeePart_score_nonneg m)
  apply add_nonneg (aggSeveritySum_nonneg (pyLower text))
  apply add_nonneg (unfavSeveritySum_nonneg (pyLower text))
  apply add_nonneg
  · apply add_nonneg (complianceCatPart_score_nonneg _ _)
    apply add_nonneg (complianceCatPart_score_nonneg _ _)
    apply add_nonneg (complianceCatPart_score_nonneg _ _)
    norm_num
  · norm_num

/-- C1: the risk level is classified from the unclamped raw accumulated
score against the 25 / 50 / 75 thresholds, while the stored risk_score is
min(raw, 100); the raw score is never negative, so the stored score always
lies in the interval 0 to 100, and a raw score above 100 yields level
critical together with stored score exactly 100. -/
theorem c1_risk_classification (text : List Char) (m : BusinessMetrics) :
    0 ≤ rawRiskScore text m
    ∧ (assessRisks text m).risk_score = min (rawRiskScore text m) 100
    ∧ (assessRisks text m).risk_level =
        (if rawRiskScore text m ≤ 25 then RiskLevel.low
         else if rawRiskScore text m ≤ 50 then RiskLevel.medium
         else if rawRiskScore text m ≤ 75 then RiskLevel.high
         else RiskLevel.critical)
    ∧ 0 ≤ (assessRisks text m).risk_score
    ∧ (assessRisks text m).risk_score ≤ 100
    ∧ (100 < rawRiskScore text m →
        (assessRisks text m).risk_level = RiskLevel.critical
        ∧ (assessRisks text m).risk_score = 100) := by
  have hnn := rawRiskScore_nonneg text m
  have hsc : (assessRisks text m).risk_score = qmin (rawRiskScore text m) 100 := rfl
  have hlv : (assessRisks text m).risk_level = classifyRisk (rawRiskScore text m) := rfl
  refine ⟨hnn, ?_, ?_, ?_, ?_, ?_⟩
  · rw [hsc]
    unfold qmin
    rw [min_def]
  · rw [hlv]
    rfl
  · rw [hsc]
    unfold qmin
    split_ifs <;> norm_num [hnn]
  · rw [hsc]
    unfold qmin
    split_ifs with h
    · exact h
    · norm_num
  · intro h
    constructor
    · rw [hlv]
      unfold classifyRisk AnalysisConfig.RISK_LOW_THRESHOLD
        AnalysisConfig.RISK_MEDIUM_THRESHOLD AnalysisConfig.RISK_HIGH_THRESHOLD
      rw [if_neg (by linarith), if_neg (by linarith), if_neg (by linarith)]
    · rw [hsc]
      unfold qmin
      rw [if_neg (by linarith)]

def c1InputText : List Char := txt (r"race non-refundable deposit no warranty")

def c1InputMetrics : BusinessMetrics :=
  { monthly_rent := 1000, security_deposit := 2500,
    early_termination_penalty := 2500, notice_period_days := 90,
    late_fee := 200, application_fee := 150 }

/-- Witness for C1: a document whose raw score is 111 (15 + 12 + 10 + 8 + 5
from the metric rules, 6 from the no-warranty clause, 25 + 15 + 15 from the
three compliance categories) is classified critical with stored score
exactly 100. -/
theorem c1_risk_classification_witness :
    (assessRisks c1InputText c1InputMetrics).risk_level = RiskLevel.critical
    ∧ (assessRisks c1InputText c1InputMetrics).risk_score = 100 := by
  have ha : aggressiveHits (pyLower c1InputText) = [] := by decide
  have hu : unfavorableHits (pyLower c1InputText) =
      [(txt (r"no warranty"), 6)] := by decide
  have h1 : violationsFound discriminationPatterns (pyLower c1InputText) =
      [txt (r"race")] := by decide
  have h2 : violationsFound illegalFeesPatterns (pyLower c1InputText) =
      [txt (r"non-refundable deposit")] := by decide
  have h3 : violationsFound habitabilityPatterns (pyLower c1InputText) =
      [txt (r"no warranty")] := by decide
  have hs1 : complianceSeverity kDiscrimination = 25 := by decide
  have hs2 : complianceSeverity kIllegalFees = 15 := by decide
  have hs3 : complianceSeverity kHabitability = 15 := by decide
  have hraw : rawRiskScore c1InputText c1InputMetrics = 111 := by
    show (riskParts _ _).score = _
    simp only [riskParts, combineParts, List.foldr_cons, List.foldr_nil,
      RulePart.append, compliancePart, compliancePatterns, List.map_cons,
      List.map_nil, complianceCatPart, aggressivePart,
      unfavorablePart, aggSeveritySum, unfavSeveritySum, ha, hu, h1, h2, h3,
      hs1, hs2, hs3, depositPart, terminationPart, noticePart, lateFeePart,
      appFeePart, c1InputMetrics]
    norm_num
  exact (c1_risk_classification c1InputText c1InputMetrics).2.2.2.2.2
    (by rw [hraw]; norm_num)

/-- The Scenario A metrics of claim C4: rent 1000, deposit 2500, early
termination penalty 2500, notice period 90 days, every other field 0. -/
def c4Metrics : BusinessMetrics :=
  { monthly_rent := 1000, security_deposit := 2500,
    early_termination_penalty := 2500, notice_period_days := 90 }

/-- C4: on the Scenario A metrics and any text with no aggressive phrase,
no unfavorable clause and no compliance pattern match, the raw score is
exactly 37 (15 for deposit above twice rent, 12 for penalty above twice
rent, 10 for notice above 60 days, with no lower tier also applied, as the
risk_factors listing shows), the level is medium, the stored score is 37
and the financial exposure is 2500 + 2500 + 2 * 1000 = 7000. -/
theorem c4_scenario_a (text : List Char)
    (ha : aggressiveHits (pyLower text) = [])
    (hu : unfavorableHits (pyLower text) = [])
    (h1 : violationsFound discriminationPatterns (pyLower text) = [])
    (h2 : violationsFound illegalFeesPatterns (pyLower text) = [])
    (h3 : violationsFound habitabilityPatterns (pyLower text) = []) :
    rawRiskScore text c4Metrics = 37
    ∧ (assessRisks text c4Metrics).risk_level = RiskLevel.medium
    ∧ (assessRisks text c4Metrics).risk_score = 37
    ∧ (assessRisks text c4Metrics).financial_exposure = 7000
    ∧ (assessRisks text c4Metrics).risk_factors =
        [(kExcessiveDeposit, 15), (kHighTerminationPenalty, 12),
         (kExtendedNotice, 10)] := by
  have hraw : rawRiskScore text c4Metrics = 37 := by
    show (riskParts _ _).score = _
    simp only [riskParts, combineParts, List.foldr_cons, List.foldr_nil,
      RulePart.append, compliancePart, compliancePatterns, List.map_cons,
      List.map_nil, complianceCatPart, aggressivePart, unfavorablePart,
      aggSeveritySum, unfavSeveritySum, ha, hu, h1, h2, h3,
      depositPart, terminationPart, noticePart, lateFeePart, appFeePart,
      c4Metrics]
    norm_num
  refine ⟨hraw, ?_, ?_, ?_, ?_⟩
  · show classifyRisk (rawRiskScore text c4Metrics) = _
    rw [hraw]
    unfold classifyRisk AnalysisConfig.RISK_LOW_THRESHOLD
      AnalysisConfig.RISK_MEDIUM_THRESHOLD
    rw [if_neg (by norm_num), if_pos (by norm_num)]
  · show qmin (rawRiskScore text c4Metrics) 100 = _
    rw [hraw]
    unfold qmin
    rw [if_pos (by norm_num)]
  · show calculateFinancialExposure c4Metrics = _
    unfold calculateFinancialExposure c4Metrics
    norm_num
  · show (riskParts _ _).factors = _
    simp only [riskParts, combineParts, List.foldr_cons, List.foldr_nil,
      RulePart.append, compliancePart, compliancePatterns, List.map_cons,
      List.map_nil, complianceCatPart, aggressivePart, unfavorablePart,
      aggCount, aggSeveritySum, unfavCount, unfavSeveritySum, ha, hu, h1, h2, h3,
      depositPart, terminationPart, noticePart, lateFeePart, appFeePart,
      c4Metrics]
    norm_num

/-- Witness for C4 at the empty document, which trivially has no aggressive
phrase, no unfavorable clause and no compliance match. -/
theorem c4_scenario_a_witness :
    rawRiskScore [] c4Metrics = 37
    ∧ (assessRisks [] c4Metrics).risk_level = RiskLevel.medium
    ∧ (assessRisks [] c4Metrics).risk_score = 37
    ∧ (assessRisks [] c4Metrics).financial_exposure = 7000
    ∧ (assessRisks [] c4Metrics).risk_factors =
        [(kExcessiveDeposit, 15), (kHighTerminationPenalty, 12),
         (kExtendedNotice, 10)] :=
  c4_scenario_a [] (by decide) (by decide) (by decide) (by decide) (by decide)

/-- C7 counterexample: analyze_document copies datetime.now() into the
analysis_timestamp field of its output, so two invocations on the same
document text at different clock readings return outputs that differ in
that field and hence are not equal records. -/
theorem c7_counterexample :
    (analyzeDocument ⟨[]⟩ 0).analysis_timestamp = 0
    ∧ (analyzeDocument ⟨[]⟩ 1).analysis_timestamp = 1
    ∧ decide ((analyzeDocument ⟨[]⟩ 0).analysis_timestamp =
        (analyzeDocument ⟨[]⟩ 1).analysis_timestamp) = false :=
  ⟨rfl, rfl, by decide⟩

/-- C7 amended: every field of the analyze_document output except
analysis_timestamp is a deterministic pure function of the document text
alone: two invocations at any two clock readings agree on all seven
analysis fields (in particular the risk scorer result is determined by
text and metrics), while analysis_timestamp merely copies the clock. -/
theorem c7_determinism_amended (d : ExtractionData) (t1 t2 : ℕ) :
    (analyzeDocument d t1).business_metrics = (analyzeDocument d t2).business_metrics
    ∧ (analyzeDocument d t1).risk_assessment = (analyzeDocument d t2).risk_assessment
    ∧ (analyzeDocument d t1).market_analysis = (analyzeDocument d t2).market_analysis
    ∧ (analyzeDocument d t1).portfolio_insights =
        (analyzeDocument d t2).portfolio_insights
    ∧ (analyzeDocument d t1).revenue_opportunities =
        (analyzeDocument d t2).revenue_opportunities
    ∧ (analyzeDocument d t1).compliance_report =
        (analyzeDocument d t2).compliance_report
    ∧ (analyzeDocument d t1).confidence_score = (analyzeDocument d t2).confidence_score
    ∧ (analyzeDocument d t1).risk_assessment = assessRisks d.full_text
        (extractBusinessMetrics d.full_text)
    ∧ (analyzeDocument d t1).analysis_timestamp = t1 :=
  ⟨rfl, rfl, rfl, rfl, rfl, rfl, rfl, rfl, rfl⟩

/-- C8: aggregating an empty document sequence returns the defined neutral
result with no division anywhere: zero properties, portfolio risk score 0,
no performance benchmarks, an all-zero risk distribution, zero totals, no
opportunities, a zeroed compliance summary and a low-risk executive
summary. -/
theorem c8_empty_portfolio (now : ℕ) :
    (analyzePortfolio [] now).portfolio_insights.total_properties = 0
    ∧ (analyzePortfolio [] now).portfolio_insights.portfolio_risk_score = 0
    ∧ (analyzePortfolio [] now).portfolio_insights.performance_benchmarks = none
    ∧ (analyzePortfolio [] now).portfolio_insights.risk_distribution =
        ({} : RiskDistribution)
    ∧ (analyzePortfolio [] now).portfolio_insights.total_annual_revenue = 0
    ∧ (analyzePortfolio [] now).portfolio_insights.total_risk_exposure = 0
    ∧ (analyzePortfolio [] now).portfolio_insights.optimization_opportunities = []
    ∧ (analyzePortfolio [] now).portfolio_insights.compliance_summary =
        { total_violations := 0, avg_compliance_score := 0, common_issues := [],
          properties_at_risk := 0 }
    ∧ (analyzePortfolio [] now).executive_summary.risk_assessment = CRiskLevel.low
    ∧ (analyzePortfolio [] now).executive_summary.key_recommendations = [] := by
  refine ⟨rfl, rfl, rfl, rfl, rfl, rfl, ?_, rfl, rfl, ?_⟩
  · show identifyPortfolioOpportunities [] = []
    unfold identifyPortfolioOpportunities
    norm_num
  · show (sortByImpactDesc (identifyPortfolioOpportunities [])).take 3 = []
    have h : identifyPortfolioOpportunities [] = [] := by
      unfold identifyPortfolioOpportunities
      norm_num
    rw [h]
    rfl

end LeaseIQ
